import Mathlib

/-!
Verification development for the Project Samarth prototype (`app.py`).

The file shallowly embeds the deterministic parts of the program:
the data-integration pipeline of `load_and_prepare_data` (annual
aggregation of the daily rainfall and soil sources, key normalization,
and the two left joins building the master table), the retry loop of
`query_model`, and the request orchestration of `ask_question`.
Floating-point measure values are modelled as exact rationals; the
bytes-level CSV reading, the HTTP transport and the Python `exec`
sandbox are modelled as oracles at their interfaces.
-/

namespace Samarth

/-! ### Character-level models of the Python string methods

`str.strip` and `str.title` as used on the State/District key columns
(lines 73-75 of app.py), restricted to ASCII case mapping. -/

/-- The whitespace set of Python `str.strip` (space, tab, LF, CR, VT, FF). -/
def pyWhitespace (c : Char) : Bool :=
  decide (c.toNat = 32 ∨ c.toNat = 9 ∨ c.toNat = 10 ∨ c.toNat = 13 ∨ c.toNat = 11 ∨ c.toNat = 12)

/-- ASCII lowercase letter test. -/
def isAsciiLowerCh (c : Char) : Bool := decide (97 ≤ c.toNat ∧ c.toNat ≤ 122)

/-- ASCII uppercase letter test. -/
def isAsciiUpperCh (c : Char) : Bool := decide (65 ≤ c.toNat ∧ c.toNat ≤ 90)

/-- ASCII letter test (the "cased character" notion of `str.title`). -/
def isAsciiAlphaCh (c : Char) : Bool := isAsciiLowerCh c || isAsciiUpperCh c

/-- ASCII uppercasing of one character. -/
def upChar (c : Char) : Char := if isAsciiLowerCh c then Char.ofNat (c.toNat - 32) else c

/-- ASCII lowercasing of one character. -/
def lowChar (c : Char) : Char := if isAsciiUpperCh c then Char.ofNat (c.toNat + 32) else c

theorem char_toNat_ofNat (n : Nat) (h : n < 55296) : (Char.ofNat n).toNat = n := by
  have hv : n.isValidChar := Or.inl h
  simp [Char.ofNat, hv, Char.ofNatAux, Char.toNat, UInt32.toNat, BitVec.toNat_ofNatLt]

theorem lower_bounds {c : Char} (h : isAsciiLowerCh c = true) :
    97 ≤ c.toNat ∧ c.toNat ≤ 122 := by
  simpa [isAsciiLowerCh] using h

theorem upper_bounds {c : Char} (h : isAsciiUpperCh c = true) :
    65 ≤ c.toNat ∧ c.toNat ≤ 90 := by
  simpa [isAsciiUpperCh] using h

theorem toNat_upChar {c : Char} (h : isAsciiLowerCh c = true) :
    (upChar c).toNat = c.toNat - 32 := by
  have hb := lower_bounds h
  rw [upChar, if_pos h, char_toNat_ofNat _ (by omega)]

theorem toNat_lowChar {c : Char} (h : isAsciiUpperCh c = true) :
    (lowChar c).toNat = c.toNat + 32 := by
  have hb := upper_bounds h
  rw [lowChar, if_pos h, char_toNat_ofNat _ (by omega)]

theorem upChar_eq_self {c : Char} (h : isAsciiLowerCh c = false) : upChar c = c := by
  simp [upChar, h]

theorem lowChar_eq_self {c : Char} (h : isAsciiUpperCh c = false) : lowChar c = c := by
  simp [lowChar, h]

theorem alpha_upChar (c : Char) : isAsciiAlphaCh (upChar c) = isAsciiAlphaCh c := by
  by_cases h : isAsciiLowerCh c = true
  · have ht := toNat_upChar h
    have hb := lower_bounds h
    rw [Bool.eq_iff_iff]
    simp only [isAsciiAlphaCh, isAsciiLowerCh, isAsciiUpperCh, Bool.or_eq_true,
      decide_eq_true_eq, ht]
    omega
  · rw [upChar_eq_self (Bool.eq_false_iff.mpr h)]

theorem alpha_lowChar (c : Char) : isAsciiAlphaCh (lowChar c) = isAsciiAlphaCh c := by
  by_cases h : isAsciiUpperCh c = true
  · have ht := toNat_lowChar h
    have hb := upper_bounds h
    rw [Bool.eq_iff_iff]
    simp only [isAsciiAlphaCh, isAsciiLowerCh, isAsciiUpperCh, Bool.or_eq_true,
      decide_eq_true_eq, ht]
    omega
  · rw [lowChar_eq_self (Bool.eq_false_iff.mpr h)]

theorem ws_upChar (c : Char) : pyWhitespace (upChar c) = pyWhitespace c := by
  by_cases h : isAsciiLowerCh c = true
  · have ht := toNat_upChar h
    have hb := lower_bounds h
    rw [Bool.eq_iff_iff]
    simp only [pyWhitespace, decide_eq_true_eq, ht]
    omega
  · rw [upChar_eq_self (Bool.eq_false_iff.mpr h)]

theorem ws_lowChar (c : Char) : pyWhitespace (lowChar c) = pyWhitespace c := by
  by_cases h : isAsciiUpperCh c = true
  · have ht := toNat_lowChar h
    have hb := upper_bounds h
    rw [Bool.eq_iff_iff]
    simp only [pyWhitespace, decide_eq_true_eq, ht]
    omega
  · rw [lowChar_eq_self (Bool.eq_false_iff.mpr h)]

theorem upChar_upChar (c : Char) : upChar (upChar c) = upChar c := by
  by_cases h : isAsciiLowerCh c = true
  · have ht := toNat_upChar h
    have hb := lower_bounds h
    have hl : isAsciiLowerCh (upChar c) = false := by
      simp only [isAsciiLowerCh, ht, decide_eq_false_iff_not]
      omega
    exact upChar_eq_self hl
  · rw [upChar_eq_self (Bool.eq_false_iff.mpr h), upChar_eq_self (Bool.eq_false_iff.mpr h)]

theorem lowChar_lowChar (c : Char) : lowChar (lowChar c) = lowChar c := by
  by_cases h : isAsciiUpperCh c = true
  · have ht := toNat_lowChar h
    have hb := upper_bounds h
    have hl : isAsciiUpperCh (lowChar c) = false := by
      simp only [isAsciiUpperCh, ht, decide_eq_false_iff_not]
      omega
    exact lowChar_eq_self hl
  · rw [lowChar_eq_self (Bool.eq_false_iff.mpr h), lowChar_eq_self (Bool.eq_false_iff.mpr h)]

theorem upChar_lower_false (c : Char) : isAsciiLowerCh (upChar c) = false ∨ upChar c = c := by
  by_cases h : isAsciiLowerCh c = true
  · left
    have ht := toNat_upChar h
    have hb := lower_bounds h
    simp only [isAsciiLowerCh, ht, decide_eq_false_iff_not]
    omega
  · right
    exact upChar_eq_self (Bool.eq_false_iff.mpr h)

theorem lowChar_upper_false (c : Char) : isAsciiUpperCh (lowChar c) = false ∨ lowChar c = c := by
  by_cases h : isAsciiUpperCh c = true
  · left
    have ht := toNat_lowChar h
    have hb := upper_bounds h
    simp only [isAsciiUpperCh, ht, decide_eq_false_iff_not]
    omega
  · right
    exact lowChar_eq_self (Bool.eq_false_iff.mpr h)

/-- `str.strip` over a character list. -/
def stripChars (cs : List Char) : List Char :=
  ((cs.dropWhile pyWhitespace).reverse.dropWhile pyWhitespace).reverse

/-- Model of Python `str.strip` (line 73/75 of app.py). -/
def pyStrip (s : String) : String := String.mk (stripChars s.data)

/-- The single-character ASCII action of `str.title`: an ASCII letter is
uppercased after an uncased character and lowercased after a cased one;
other ASCII characters pass through unchanged. -/
def titleChar (prevAlpha : Bool) (c : Char) : Char :=
  if isAsciiAlphaCh c then (if prevAlpha then lowChar c else upChar c) else c

/-- `str.title` over character lists whose characters are all ASCII,
carrying whether the previous character was a letter; on such input it
agrees with the full model `titleAux` below. -/
def titleAuxA : Bool → List Char → List Char
  | _, [] => []
  | prev, c :: cs => titleChar prev c :: titleAuxA (isAsciiAlphaCh c) cs

/-- U+0130, LATIN CAPITAL LETTER I WITH DOT ABOVE. -/
def capIWithDot : Char := Char.ofNat 304

/-- U+0307, COMBINING DOT ABOVE (an uncased combining mark). -/
def combiningDotAbove : Char := Char.ofNat 775

/-- CPython's previous-is-cased test driving `str.title` (a character is
cased when it is lower, upper or titlecased). Exact on ASCII and on
U+0130 and U+0307, the only non-ASCII characters this development uses;
other characters are treated as uncased. -/
def isCasedCh (c : Char) : Bool := isAsciiAlphaCh c || decide (c = capIWithDot)

/-- The full Unicode lowercase mapping as used by `str.title`: U+0130
expands to the two-character sequence i followed by the combining dot
above (SpecialCasing.txt); ASCII letters lowercase pointwise; the other
characters this development uses map to themselves. -/
def lowerFull (c : Char) : List Char :=
  if c = capIWithDot then [Char.ofNat 105, combiningDotAbove] else [lowChar c]

/-- The full titlecase mapping as used by `str.title`: ASCII letters
uppercase pointwise; U+0130 and the other characters used here are their
own titlecase. -/
def titleFull (c : Char) : List Char := [upChar c]

/-- Python `str.title`: each character contributes its full lowercase
mapping when the previous input character was cased, else its full
titlecase mapping; the cased test is applied to the input character, not
to its expansion. -/
def titleAux : Bool → List Char → List Char
  | _, [] => []
  | prev, c :: cs => (if prev then lowerFull c else titleFull c) ++ titleAux (isCasedCh c) cs

/-- Model of Python `str.title` (line 73/75 of app.py). -/
def pyTitle (s : String) : String := String.mk (titleAux false s.data)

/-- The key normalization applied to State and District text:
`.str.strip().str.title()` (lines 73-75 of app.py). -/
def normStr (s : String) : String := pyTitle (pyStrip s)

theorem titleChar_titleChar (p : Bool) (c : Char) :
    titleChar p (titleChar p c) = titleChar p c := by
  by_cases h : isAsciiAlphaCh c = true
  · cases p with
    | false =>
      have h2 : isAsciiAlphaCh (upChar c) = true := (alpha_upChar c).trans h
      simp [titleChar, h, h2, upChar_upChar]
    | true =>
      have h2 : isAsciiAlphaCh (lowChar c) = true := (alpha_lowChar c).trans h
      simp [titleChar, h, h2, lowChar_lowChar]
  · simp [titleChar, h]

theorem alpha_titleChar (p : Bool) (c : Char) :
    isAsciiAlphaCh (titleChar p c) = isAsciiAlphaCh c := by
  by_cases h : isAsciiAlphaCh c = true
  · cases p with
    | false => simp [titleChar, h, alpha_upChar]
    | true => simp [titleChar, h, alpha_lowChar]
  · simp [titleChar, h]

theorem ws_titleChar (p : Bool) (c : Char) :
    pyWhitespace (titleChar p c) = pyWhitespace c := by
  by_cases h : isAsciiAlphaCh c = true
  · cases p with
    | false => simp [titleChar, h, ws_upChar]
    | true => simp [titleChar, h, ws_lowChar]
  · simp [titleChar, h]

theorem titleAuxA_idem (cs : List Char) : ∀ p, titleAuxA p (titleAuxA p cs) = titleAuxA p cs := by
  induction cs with
  | nil => intro p; rfl
  | cons c t ih =>
    intro p
    simp only [titleAuxA, titleChar_titleChar, alpha_titleChar, List.cons.injEq, true_and]
    exact ih (isAsciiAlphaCh c)

theorem map_ws_titleAuxA (cs : List Char) :
    ∀ p, (titleAuxA p cs).map pyWhitespace = cs.map pyWhitespace := by
  induction cs with
  | nil => intro p; rfl
  | cons c t ih =>
    intro p
    simp only [titleAuxA, List.map_cons, ws_titleChar, List.cons.injEq, true_and]
    exact ih (isAsciiAlphaCh c)

theorem dropWhile_fix_of_head (l : List Char)
    (h : ∀ c ∈ l.head?, pyWhitespace c = false) : l.dropWhile pyWhitespace = l := by
  cases l with
  | nil => rfl
  | cons c t =>
    have hc : pyWhitespace c = false := h c (by simp)
    simp [List.dropWhile_cons, hc]

theorem head_ws_false_of_fix (l : List Char)
    (h : l.dropWhile pyWhitespace = l) : ∀ c ∈ l.head?, pyWhitespace c = false := by
  cases l with
  | nil => intro c hc; simp at hc
  | cons c t =>
    intro c' hc'
    simp only [List.head?_cons, Option.mem_def, Option.some.injEq] at hc'
    subst hc'
    by_cases hw : pyWhitespace c = true
    · rw [List.dropWhile_cons, if_pos hw] at h
      have hlen : (t.dropWhile pyWhitespace).length ≤ t.length :=
        (List.dropWhile_sublist pyWhitespace).length_le
      have hcon := congrArg List.length h
      simp only [List.length_cons] at hcon
      omega
    · exact Bool.eq_false_iff.mpr hw

theorem dropWhile_fix_transfer (l1 l2 : List Char)
    (hmap : l1.map pyWhitespace = l2.map pyWhitespace)
    (h2 : l2.dropWhile pyWhitespace = l2) : l1.dropWhile pyWhitespace = l1 := by
  apply dropWhile_fix_of_head
  intro c hc
  cases l1 with
  | nil => simp at hc
  | cons c1 t1 =>
    simp only [List.head?_cons, Option.mem_def, Option.some.injEq] at hc
    subst hc
    cases l2 with
    | nil => simp at hmap
    | cons c2 t2 =>
      simp only [List.map_cons, List.cons.injEq] at hmap
      rw [hmap.1]
      exact head_ws_false_of_fix _ h2 c2 (by simp)

theorem dropWhile_fix_of_prefix (l1 l2 : List Char)
    (h : l1 <+: l2) (h2 : l2.dropWhile pyWhitespace = l2) :
    l1.dropWhile pyWhitespace = l1 := by
  apply dropWhile_fix_of_head
  intro c hc
  obtain ⟨r, hr⟩ := h
  cases l1 with
  | nil => simp at hc
  | cons c1 t1 =>
    simp only [List.head?_cons, Option.mem_def, Option.some.injEq] at hc
    have hh : c ∈ l2.head? := by
      rw [Option.mem_def, ← hr, hc]
      rfl
    exact head_ws_false_of_fix _ h2 c hh

theorem stripChars_front_fixed (cs : List Char) :
    (stripChars cs).dropWhile pyWhitespace = stripChars cs := by
  unfold stripChars
  have hdfix : (cs.dropWhile pyWhitespace).dropWhile pyWhitespace = cs.dropWhile pyWhitespace :=
    List.dropWhile_idempotent pyWhitespace cs
  have hsuf : ((cs.dropWhile pyWhitespace).reverse.dropWhile pyWhitespace)
      <:+ (cs.dropWhile pyWhitespace).reverse := List.dropWhile_suffix _
  have hpre : ((cs.dropWhile pyWhitespace).reverse.dropWhile pyWhitespace).reverse
      <+: cs.dropWhile pyWhitespace := by
    have h := List.IsSuffix.reverse hsuf
    rwa [List.reverse_reverse] at h
  exact dropWhile_fix_of_prefix _ _ hpre hdfix

theorem stripChars_back_fixed (cs : List Char) :
    (stripChars cs).reverse.dropWhile pyWhitespace = (stripChars cs).reverse := by
  unfold stripChars
  rw [List.reverse_reverse]
  exact List.dropWhile_idempotent pyWhitespace _

theorem stripChars_of_fixed (l : List Char)
    (hf : l.dropWhile pyWhitespace = l)
    (hb : l.reverse.dropWhile pyWhitespace = l.reverse) : stripChars l = l := by
  unfold stripChars
  rw [hf, hb, List.reverse_reverse]

theorem stripChars_titleAuxA (p : Bool) (cs : List Char) :
    stripChars (titleAuxA p (stripChars cs)) = titleAuxA p (stripChars cs) := by
  apply stripChars_of_fixed
  · exact dropWhile_fix_transfer _ _ (map_ws_titleAuxA _ p) (stripChars_front_fixed cs)
  · apply dropWhile_fix_transfer _ (stripChars cs).reverse
    · rw [List.map_reverse, List.map_reverse, map_ws_titleAuxA]
    · exact stripChars_back_fixed cs

theorem toNat_capIWithDot : capIWithDot.toNat = 304 :=
  char_toNat_ofNat 304 (by omega)

theorem ascii_ne_capI {c : Char} (h : c.toNat < 128) : c ≠ capIWithDot := by
  intro hc
  rw [hc, toNat_capIWithDot] at h
  omega

theorem isCasedCh_ascii {c : Char} (h : c.toNat < 128) : isCasedCh c = isAsciiAlphaCh c := by
  unfold isCasedCh
  rw [decide_eq_false (ascii_ne_capI h), Bool.or_false]

theorem lowerFull_ascii {c : Char} (h : c.toNat < 128) : lowerFull c = [lowChar c] := by
  unfold lowerFull
  rw [if_neg (ascii_ne_capI h)]

theorem non_alpha_cases {c : Char} (ha : isAsciiAlphaCh c = false) :
    isAsciiLowerCh c = false ∧ isAsciiUpperCh c = false := by
  unfold isAsciiAlphaCh at ha
  exact ⟨by cases hx : isAsciiLowerCh c <;> simp [hx] at ha ⊢,
    by cases hx : isAsciiUpperCh c <;> simp [hx] at ha ⊢⟩

theorem titleStep_ascii {c : Char} (h : c.toNat < 128) (p : Bool) :
    (if p then lowerFull c else titleFull c) = [titleChar p c] := by
  by_cases ha : isAsciiAlphaCh c = true
  · cases p with
    | false => simp [titleFull, titleChar, ha]
    | true => simp [lowerFull_ascii h, titleChar, ha]
  · have ha' := non_alpha_cases (Bool.eq_false_iff.mpr ha)
    cases p with
    | false => simp [titleFull, titleChar, ha, upChar_eq_self ha'.1]
    | true => simp [lowerFull_ascii h, titleChar, ha, lowChar_eq_self ha'.2]

theorem titleAux_eq_titleAuxA (cs : List Char) (h : ∀ c ∈ cs, c.toNat < 128) :
    ∀ p, titleAux p cs = titleAuxA p cs := by
  induction cs with
  | nil => intro p; rfl
  | cons c t ih =>
    intro p
    have hc : c.toNat < 128 := h c (by simp)
    have ht : ∀ x ∈ t, x.toNat < 128 := fun x hx => h x (by simp [hx])
    show (if p then lowerFull c else titleFull c) ++ titleAux (isCasedCh c) t
        = titleChar p c :: titleAuxA (isAsciiAlphaCh c) t
    rw [titleStep_ascii hc, isCasedCh_ascii hc, ih ht]
    rfl

theorem toNat_upChar_lt {c : Char} (h : c.toNat < 128) : (upChar c).toNat < 128 := by
  by_cases hl : isAsciiLowerCh c = true
  · rw [toNat_upChar hl]
    omega
  · rw [upChar_eq_self (Bool.eq_false_iff.mpr hl)]
    exact h

theorem toNat_lowChar_lt {c : Char} (h : c.toNat < 128) : (lowChar c).toNat < 128 := by
  by_cases hu : isAsciiUpperCh c = true
  · have hb := upper_bounds hu
    rw [toNat_lowChar hu]
    omega
  · rw [lowChar_eq_self (Bool.eq_false_iff.mpr hu)]
    exact h

theorem titleChar_ascii {c : Char} (h : c.toNat < 128) (p : Bool) :
    (titleChar p c).toNat < 128 := by
  unfold titleChar
  split
  · split
    · exact toNat_lowChar_lt h
    · exact toNat_upChar_lt h
  · exact h

theorem titleAuxA_ascii (cs : List Char) (h : ∀ c ∈ cs, c.toNat < 128) :
    ∀ p, ∀ x ∈ titleAuxA p cs, x.toNat < 128 := by
  induction cs with
  | nil =>
    intro p x hx
    simp [titleAuxA] at hx
  | cons c t ih =>
    intro p x hx
    rw [titleAuxA] at hx
    rcases List.mem_cons.mp hx with h1 | h2
    · rw [h1]
      exact titleChar_ascii (h c (by simp)) p
    · exact ih (fun y hy => h y (by simp [hy])) _ x h2

theorem mem_stripChars {cs : List Char} {c : Char} (h : c ∈ stripChars cs) : c ∈ cs := by
  unfold stripChars at h
  rw [List.mem_reverse] at h
  have h1 : c ∈ (cs.dropWhile pyWhitespace).reverse :=
    (List.dropWhile_sublist _).subset h
  rw [List.mem_reverse] at h1
  exact (List.dropWhile_sublist _).subset h1

theorem normStr_idem_ascii (s : String) (h : ∀ c ∈ s.data, c.toNat < 128) :
    normStr (normStr s) = normStr s := by
  have hu : ∀ c ∈ stripChars s.data, c.toNat < 128 := fun c hc => h c (mem_stripChars hc)
  have h1 : titleAux false (stripChars s.data) = titleAuxA false (stripChars s.data) :=
    titleAux_eq_titleAuxA _ hu false
  have hv : ∀ c ∈ titleAuxA false (stripChars s.data), c.toNat < 128 :=
    titleAuxA_ascii _ hu false
  show String.mk (titleAux false (stripChars (titleAux false (stripChars s.data))))
      = String.mk (titleAux false (stripChars s.data))
  rw [h1, stripChars_titleAuxA, titleAux_eq_titleAuxA _ hv false,
    titleAuxA_idem (stripChars s.data) false]

/-! ### Cells and the pandas numeric coercions

A cell of an untyped DataFrame column: a number, a text value, or a
missing value (NaN). Measure values are modelled as exact rationals. -/

inductive Cell where
  | num (q : ℚ)
  | text (s : String)
  | na
deriving DecidableEq

/-- Digit-string to number (none on empty input or a non-digit). -/
def parseNatDigits (cs : List Char) : Option Nat :=
  if cs.isEmpty then none
  else
    cs.foldl (fun acc c =>
      match acc with
      | none => none
      | some n => if c.isDigit then some (10 * n + (c.toNat - 48)) else none) (some 0)

/-- Splits a character list at the first dot, if any. -/
def splitAtDot : List Char → List Char × Option (List Char)
  | [] => ([], none)
  | c :: rest =>
    if c = '.' then ([], some rest)
    else
      let p := splitAtDot rest
      (c :: p.1, p.2)

/-- Unsigned decimal numeral (with optional fractional part) to an exact rational. -/
def parseUnsignedQ (cs : List Char) : Option ℚ :=
  match splitAtDot cs with
  | (ip, none) => (parseNatDigits ip).map (fun n => (n : ℚ))
  | (ip, some fp) =>
    match parseNatDigits ip, parseNatDigits fp with
    | some n, some f => some ((n : ℚ) + (f : ℚ) / ((10 : ℚ) ^ fp.length))
    | _, _ => none

/-- Modelled from pandas: string-to-number coercion of
`pd.to_numeric(..., errors='coerce')` for plain decimal numerals. -/
def parseNumQ (s : String) : Option ℚ :=
  match s.data with
  | [] => none
  | c :: rest =>
    if c = '-' then (parseUnsignedQ rest).map (fun q => -q)
    else parseUnsignedQ (c :: rest)

/-- `pd.to_numeric(..., errors='coerce')` on one cell: numbers pass
through, text is parsed, anything unparseable and NaN coerce to NaN. -/
def toNumericCell : Cell → Option ℚ
  | .num q => some q
  | .text s => parseNumQ s
  | .na => none

/-- Truncation toward zero, the float-to-int conversion of `astype(int)`. -/
def truncQ (q : ℚ) : Int := if 0 ≤ q then ⌊q⌋ else ⌈q⌉

/-- Signed integer numeral parse, the `int(str)` conversion Python applies
when `astype(int)` meets a text cell. -/
def parseIntStr (s : String) : Option Int :=
  match s.data with
  | [] => none
  | c :: rest =>
    if c = '-' then (parseNatDigits rest).map (fun n => -(n : Int))
    else (parseNatDigits (c :: rest)).map (fun n => (n : Int))

/-- `astype(int)` on one cell (lines 55/65 of app.py): floats truncate
toward zero, text must parse as an integer, NaN raises. -/
def astypeIntCell : Cell → Except String Int
  | .num q => .ok (truncQ q)
  | .text s =>
    match parseIntStr s with
    | some n => .ok n
    | none => .error ("invalid literal for int with base 10: " ++ s)
  | .na => .error "Cannot convert non-finite values (NA or inf) to integer"

/-- The Year normalization of line 77 of app.py on one cell:
`pd.to_numeric(errors='coerce')` followed by `astype(int)`; `none` when
the coercion fails, in which case the row is dropped (lines 80-82). -/
def normYearCell (c : Cell) : Option Int := (toNumericCell c).map truncQ

theorem truncQ_intCast (n : Int) : truncQ (n : ℚ) = n := by
  unfold truncQ
  split
  · exact Int.floor_intCast n
  · exact Int.ceil_intCast n

/-! ### The key normalizer on a generic table (lines 71-82 of app.py)

A row of any of the three frames, with the key columns State, District
and Year and an arbitrary payload standing for the remaining columns. -/

structure TRow (α : Type) where
  state : String
  district : String
  year : Cell
  payload : α
deriving DecidableEq

/-- Normalization of a single row: trim and title-case the State and
District text, coerce Year to an integer; `none` when Year fails to
coerce, in which case the row is dropped before the merge. -/
def normRow {α : Type} (r : TRow α) : Option (TRow α) :=
  match normYearCell r.year with
  | none => none
  | some y => some ⟨normStr r.state, normStr r.district, Cell.num (y : ℚ), r.payload⟩

/-- The key-normalization step applied to a whole table
(the loop of lines 71-77 together with the drops of lines 80-82). -/
def normalizeTable {α : Type} (t : List (TRow α)) : List (TRow α) := t.filterMap normRow

theorem normYearCell_intCast (y : Int) : normYearCell (Cell.num (y : ℚ)) = some y := by
  unfold normYearCell toNumericCell
  simp [truncQ_intCast]

/-- Whether every character of a string is ASCII. -/
def allAscii (s : String) : Bool := s.data.all (fun c => decide (c.toNat < 128))

theorem allAscii_iff {s : String} : allAscii s = true ↔ ∀ c ∈ s.data, c.toNat < 128 := by
  unfold allAscii
  rw [List.all_eq_true]
  simp

theorem normRow_normRow_ascii {α : Type} (r r' : TRow α)
    (hst : allAscii r.state = true) (hdi : allAscii r.district = true)
    (h : normRow r = some r') : normRow r' = some r' := by
  unfold normRow at h
  cases hy : normYearCell r.year with
  | none =>
    rw [hy] at h
    exact Option.noConfusion h
  | some y =>
    rw [hy] at h
    have h2 : (⟨normStr r.state, normStr r.district, Cell.num (y : ℚ), r.payload⟩ : TRow α) = r' :=
      Option.some.inj h
    subst h2
    unfold normRow
    simp [normYearCell_intCast, normStr_idem_ascii r.state (allAscii_iff.mp hst),
      normStr_idem_ascii r.district (allAscii_iff.mp hdi)]

/-- The C3 counterexample row: its State is the three characters x,
U+0130, a; the whole-table claim fails on the one-row table holding it. -/
def c3Row : TRow Unit :=
  ⟨String.mk [Char.ofNat 120, capIWithDot, Char.ofNat 97], "d", Cell.num 2010, ()⟩

/-- C3 counterexample: the key normalization is not idempotent. The
lowercase expansion of U+0130 produced by `str.title` ends in the
uncased combining dot above, so on a second pass the letter after it is
re-titlecased: normalizing the State value xİa twice differs from
normalizing it once, and normalizing the one-row table holding it twice
differs from normalizing it once. -/
theorem normalize_not_idempotent_counterexample :
    normStr (normStr (String.mk [Char.ofNat 120, capIWithDot, Char.ofNat 97]))
      ≠ normStr (String.mk [Char.ofNat 120, capIWithDot, Char.ofNat 97]) ∧
    normalizeTable (normalizeTable [c3Row]) ≠ normalizeTable [c3Row] := by
  constructor
  · decide
  · decide

/-- C3 (amended): the key normalization (trim plus title-case on State
and District, numeric coercion plus integer truncation on Year, dropping
rows whose Year fails to coerce) is idempotent on every table whose
State and District values are ASCII: applying it twice yields the same
table as applying it once. (On full Unicode text `str.title` itself is
not idempotent, so the unrestricted claim fails.) -/
theorem normalize_idempotent_ascii {α : Type} (t : List (TRow α))
    (h : ∀ r ∈ t, allAscii r.state = true ∧ allAscii r.district = true) :
    normalizeTable (normalizeTable t) = normalizeTable t := by
  induction t with
  | nil => rfl
  | cons r t ih =>
    have hr0 := h r (by simp)
    have ht : ∀ x ∈ t, allAscii x.state = true ∧ allAscii x.district = true :=
      fun x hx => h x (by simp [hx])
    cases hr : normRow r with
    | none =>
      unfold normalizeTable at ih ⊢
      rw [List.filterMap_cons, hr]
      exact ih ht
    | some r' =>
      unfold normalizeTable at ih ⊢
      rw [List.filterMap_cons, hr, List.filterMap_cons,
        normRow_normRow_ascii r r' hr0.1 hr0.2 hr]
      simp [ih ht]

/-- Witness for `normalize_idempotent_ascii` at a concrete table. -/
theorem normalize_idempotent_ascii_witness :
    normalizeTable (normalizeTable
        [(⟨" Bihar", "patna ", Cell.text "2011", (5 : ℚ)⟩ : TRow ℚ)])
      = normalizeTable [(⟨" Bihar", "patna ", Cell.text "2011", (5 : ℚ)⟩ : TRow ℚ)] :=
  normalize_idempotent_ascii [(⟨" Bihar", "patna ", Cell.text "2011", (5 : ℚ)⟩ : TRow ℚ)]
    (by decide)

/-! ### The three data sources (lines 47-68 of app.py) -/

/-- One row of the daily rainfall source: key columns, the raw Date
string, the redundant Year cell, and the daily `Avg_rainfall` measure. -/
structure RainRow where
  state : String
  district : String
  dateStr : String
  year : Cell
  rainfall : ℚ
deriving DecidableEq

/-- One row of the daily soil-moisture source (`Avg_smlvl_at15cm`). -/
structure SoilRow where
  state : String
  district : String
  dateStr : String
  year : Cell
  soil : ℚ
deriving DecidableEq

/-- One row of the annual crop source after the renames of line 48, with
one representative crop-metric column. -/
structure AgriRow where
  state : String
  district : String
  year : Cell
  crop : ℚ
deriving DecidableEq

/-- One row of an annual aggregate table (the groupby output of
lines 57-58 and 67-68 after the renames). -/
structure AnnualRow where
  year : Int
  state : String
  district : String
  val : ℚ
deriving DecidableEq

/-- Modelled from pandas: `pd.to_datetime(..., errors='coerce')`
restricted to ISO `YYYY-MM-DD` date strings, composed with `.dt.year`;
`none` models NaT. -/
def parseDateYear (s : String) : Option Int :=
  match s.data with
  | [y1, y2, y3, y4, s5, m1, m2, s8, d1, d2] =>
    if y1.isDigit && y2.isDigit && y3.isDigit && y4.isDigit &&
        decide (s5 = '-') && m1.isDigit && m2.isDigit &&
        decide (s8 = '-') && d1.isDigit && d2.isDigit then
      if 1 ≤ 10 * (m1.toNat - 48) + (m2.toNat - 48) ∧
          10 * (m1.toNat - 48) + (m2.toNat - 48) ≤ 12 ∧
          1 ≤ 10 * (d1.toNat - 48) + (d2.toNat - 48) ∧
          10 * (d1.toNat - 48) + (d2.toNat - 48) ≤ 31 then
        some (((y1.toNat - 48) * 1000 + (y2.toNat - 48) * 100 +
          (y3.toNat - 48) * 10 + (y4.toNat - 48) : Nat) : Int)
      else none
    else none
  | _ => none

/-- Lines 53-55 / 63-65 of app.py for one row: the grouping year
(`Agg_Year`) is the year of the parsed Date when the parse succeeds,
otherwise the raw Year cell pushed through `astype(int)` (the `.fillna`
fallback); a Year cell that cannot convert raises. -/
def rowAggYear (dateStr : String) (year : Cell) : Except String Int :=
  match parseDateYear dateStr with
  | some y => .ok y
  | none => astypeIntCell year

/-- Effectful map over the rows of a column operation: the first raising
cell aborts the whole operation, as the vectorized line 55/65 does. -/
def mapME {β γ : Type} (f : β → Except String γ) : List β → Except String (List γ)
  | [] => .ok []
  | b :: l =>
    match f b with
    | .error e => .error e
    | .ok c =>
      match mapME f l with
      | .error e => .error e
      | .ok cs => .ok (c :: cs)

/-- First-occurrence deduplication of group keys: groupby emits one
output row per distinct key. -/
def dedupKeys : List (Int × String × String) → List (Int × String × String)
  | [] => []
  | k :: ks => k :: (dedupKeys ks).filter (fun x => decide (x ≠ k))

/-- Exact-rational sum of the measure over the rows carrying a given
group key: the ideal value of the float64 groupby sum of line 57 (the
float accumulation itself is modelled separately by `keySumF`). -/
def keySum (pairs : List ((Int × String × String) × ℚ)) (k : Int × String × String) : ℚ :=
  ((pairs.filter (fun p => decide (p.1 = k))).map Prod.snd).sum

/-- Number of rows carrying a given group key. -/
def keyCount (pairs : List ((Int × String × String) × ℚ)) (k : Int × String × String) : Nat :=
  (pairs.filter (fun p => decide (p.1 = k))).length

/-- `groupby([...]).sum()` over (key, measure) pairs. -/
def groupBySum (pairs : List ((Int × String × String) × ℚ)) : List AnnualRow :=
  (dedupKeys (pairs.map Prod.fst)).map fun k => ⟨k.1, k.2.1, k.2.2, keySum pairs k⟩

/-- `groupby([...]).mean()` over (key, measure) pairs. -/
def groupByMean (pairs : List ((Int × String × String) × ℚ)) : List AnnualRow :=
  (dedupKeys (pairs.map Prod.fst)).map fun k =>
    ⟨k.1, k.2.1, k.2.2, keySum pairs k / (keyCount pairs k : ℚ)⟩

/-- The per-row (Agg_Year key, measure) computation of lines 53-55. -/
def rainPair (r : RainRow) : Except String ((Int × String × String) × ℚ) :=
  match rowAggYear r.dateStr r.year with
  | .error e => .error e
  | .ok y => .ok ((y, r.state, r.district), r.rainfall)

/-- The per-row (Agg_Year key, measure) computation of lines 63-65. -/
def soilPair (r : SoilRow) : Except String ((Int × String × String) × ℚ) :=
  match rowAggYear r.dateStr r.year with
  | .error e => .error e
  | .ok y => .ok ((y, r.state, r.district), r.soil)

/-- Lines 51-58: compute `Agg_Year` for every rainfall row (any row
where neither the Date nor the Year cell converts raises, failing the
load), then group by (Agg_Year, State, District) and sum `Avg_rainfall`. -/
def rainAnnual (rows : List RainRow) : Except String (List AnnualRow) :=
  match mapME rainPair rows with
  | .error e => .error e
  | .ok pairs => .ok (groupBySum pairs)

/-- Lines 61-68: the same for the soil source, with mean instead of sum. -/
def soilAnnual (rows : List SoilRow) : Except String (List AnnualRow) :=
  match mapME soilPair rows with
  | .error e => .error e
  | .ok pairs => .ok (groupByMean pairs)

/-- The key normalization of lines 71-77 applied to an annual aggregate
table: its Year column is already integral, so `pd.to_numeric` plus
`astype(int)` is the identity, no rows are dropped, and only the State
and District text changes. -/
def normAnnual (t : List AnnualRow) : List AnnualRow :=
  t.map fun r => ⟨r.year, normStr r.state, normStr r.district, r.val⟩

/-- A crop row after key normalization: Year is now an integer. -/
structure NAgriRow where
  state : String
  district : String
  year : Int
  crop : ℚ
deriving DecidableEq

/-- Lines 71-82 applied to the crop table: trim and title-case State and
District, coerce Year, drop the rows whose Year fails to coerce. -/
def normAgri (rows : List AgriRow) : List NAgriRow :=
  rows.filterMap fun r =>
    match normYearCell r.year with
    | none => none
    | some y => some ⟨normStr r.state, normStr r.district, y, r.crop⟩

/-! ### The merge engine (lines 84-87 of app.py) -/

/-- A row of the intermediate merge of crop with the rainfall aggregate. -/
structure M1Row where
  state : String
  district : String
  year : Int
  crop : ℚ
  rain : Option ℚ
deriving DecidableEq

/-- A row of the master table: a crop row left-extended with the
matching rainfall and soil aggregates. -/
structure MRow where
  state : String
  district : String
  year : Int
  crop : ℚ
  rain : Option ℚ
  soil : Option ℚ
deriving DecidableEq

/-- Join key of an annual aggregate row. -/
def keyA (r : AnnualRow) : Int × String × String := (r.year, r.state, r.district)

/-- Join key of a normalized crop row. -/
def keyN (r : NAgriRow) : Int × String × String := (r.year, r.state, r.district)

/-- Join key of an intermediate merged row. -/
def key1 (r : M1Row) : Int × String × String := (r.year, r.state, r.district)

/-- Join key of a master-table row. -/
def keyM (r : MRow) : Int × String × String := (r.year, r.state, r.district)

/-- Line 86: `pd.merge(df_agri, df_rain_annual, on=[Year, State,
District], how='left')` — every left row is kept; it pairs with each
matching right row, or with a null when there is none. -/
def leftJoinRain (agri : List NAgriRow) (rain : List AnnualRow) : List M1Row :=
  agri.flatMap fun l =>
    match rain.filter (fun r => decide (keyA r = keyN l)) with
    | [] => [⟨l.state, l.district, l.year, l.crop, none⟩]
    | ms => ms.map fun r => ⟨l.state, l.district, l.year, l.crop, some r.val⟩

/-- Line 87: the second left merge, onto the soil aggregate. -/
def leftJoinSoil (m1 : List M1Row) (soil : List AnnualRow) : List MRow :=
  m1.flatMap fun l =>
    match soil.filter (fun r => decide (keyA r = key1 l)) with
    | [] => [⟨l.state, l.district, l.year, l.crop, l.rain, none⟩]
    | ms => ms.map fun r => ⟨l.state, l.district, l.year, l.crop, l.rain, some r.val⟩

/-- The two sequential left joins building the master table. -/
def mergeTables (agri : List NAgriRow) (rain soil : List AnnualRow) : List MRow :=
  leftJoinSoil (leftJoinRain agri rain) soil

/-- `load_and_prepare_data` (lines 32-105) after CSV reading: aggregate
the two daily sources (a conversion error anywhere aborts the load and
leaves the master table unavailable, modelled as `Except.error`),
normalize the keys of all three tables, then merge. -/
def loadAndPrepare (agri : List AgriRow) (rain : List RainRow) (soil : List SoilRow) :
    Except String (List MRow) := do
  let rainA ← rainAnnual rain
  let soilA ← soilAnnual soil
  pure (mergeTables (normAgri agri) (normAnnual rainA) (normAnnual soilA))

/-! ### Concrete aggregation facts (claims C2 and C4) -/

/-- Rainfall rows with District `"pune "`, State `" Maharashtra"`,
Year 2010 and values 10.5, 20.0, 5.5 on distinct dates. -/
def c2RainRows : List RainRow :=
  [⟨" Maharashtra", "pune ", "2010-01-01", Cell.num 2010, 10.5⟩,
   ⟨" Maharashtra", "pune ", "2010-01-02", Cell.num 2010, 20⟩,
   ⟨" Maharashtra", "pune ", "2010-01-03", Cell.num 2010, 5.5⟩]

/-- Soil rows with values 30.0 and 40.0 under the same key. -/
def c2SoilRows : List SoilRow :=
  [⟨" Maharashtra", "pune ", "2010-01-01", Cell.num 2010, 30⟩,
   ⟨" Maharashtra", "pune ", "2010-01-02", Cell.num 2010, 40⟩]

/-- The shared raw group key of the rows above. -/
def c2Key : Int × String × String := (2010, " Maharashtra", "pune ")

/-- The (key, measure) pairs line 55 computes for `c2RainRows`. -/
def c2RainPairs : List ((Int × String × String) × ℚ) :=
  [(c2Key, 10.5), (c2Key, 20), (c2Key, 5.5)]

/-- The (key, measure) pairs line 65 computes for `c2SoilRows`. -/
def c2SoilPairs : List ((Int × String × String) × ℚ) :=
  [(c2Key, 30), (c2Key, 40)]

/-- C2: on the concrete inputs of the claim the rainfall aggregation
followed by key normalization yields exactly one row, keyed
(2010, "Maharashtra", "Pune"), with annual total 36; the soil
aggregation likewise yields exactly one row with annual mean 35. -/
theorem annual_aggregates_concrete :
    (rainAnnual c2RainRows).map normAnnual
      = Except.ok [⟨2010, "Maharashtra", "Pune", 36⟩] ∧
    (soilAnnual c2SoilRows).map normAnnual
      = Except.ok [⟨2010, "Maharashtra", "Pune", 35⟩] := by
  have hs1 : normStr " Maharashtra" = "Maharashtra" := by decide
  have hs2 : normStr "pune " = "Pune" := by decide
  constructor
  · have h1 : (rainAnnual c2RainRows).map normAnnual
        = Except.ok (normAnnual [⟨2010, " Maharashtra", "pune ", keySum c2RainPairs c2Key⟩]) :=
      rfl
    have h4 : keySum c2RainPairs c2Key = 36 := by
      simp [keySum, c2RainPairs, List.filter_cons]
      norm_num
    rw [h1, h4]
    unfold normAnnual
    simp only [List.map_cons, List.map_nil]
    rw [hs1, hs2]
  · have h1 : (soilAnnual c2SoilRows).map normAnnual
        = Except.ok (normAnnual [⟨2010, " Maharashtra", "pune ",
            keySum c2SoilPairs c2Key / (keyCount c2SoilPairs c2Key : ℚ)⟩]) :=
      rfl
    have h4 : keySum c2SoilPairs c2Key / (keyCount c2SoilPairs c2Key : ℚ) = 35 := by
      have hc : keyCount c2SoilPairs c2Key = 2 := by decide
      rw [hc]
      simp [keySum, c2SoilPairs, List.filter_cons]
      norm_num
    rw [h1, h4]
    unfold normAnnual
    simp only [List.map_cons, List.map_nil]
    rw [hs1, hs2]

/-- C4 (code bug): for a daily row the grouping year is the Date's year
when the Date parses, otherwise the row's Year cell; but a row for which
neither resolves is not dropped — `astype(int)` raises on its NaN and
the whole rainfall load fails instead of succeeding without the row. -/
theorem agg_year_fallback_and_load_failure :
    rowAggYear "2011-05-05" (Cell.num 2010) = .ok 2011 ∧
    rowAggYear "not-a-date" (Cell.num 2010) = .ok 2010 ∧
    rainAnnual [⟨" Maharashtra", "pune ", "not-a-date", Cell.na, 10⟩]
      = .error "Cannot convert non-finite values (NA or inf) to integer" := by
  refine ⟨rfl, ?_, rfl⟩
  show Except.ok (truncQ 2010) = Except.ok 2010
  unfold truncQ
  norm_num

/-! ### Join cardinality (claim C1) -/

/-- Number of master-table rows carrying a given (Year, State, District). -/
def countKeyM (rows : List MRow) (k : Int × String × String) : Nat :=
  (rows.filter (fun r => decide (keyM r = k))).length

/-- Number of intermediate merged rows carrying a given key. -/
def countKey1 (rows : List M1Row) (k : Int × String × String) : Nat :=
  (rows.filter (fun r => decide (key1 r = k))).length

/-- Number of normalized crop rows carrying a given key. -/
def countKeyN (rows : List NAgriRow) (k : Int × String × String) : Nat :=
  (rows.filter (fun r => decide (keyN r = k))).length

theorem filter_key_len_le_one {β : Type} (keyf : β → Int × String × String)
    (l : List β) (hn : (l.map keyf).Nodup) (k : Int × String × String) :
    (l.filter (fun r => decide (keyf r = k))).length ≤ 1 := by
  induction l with
  | nil => simp
  | cons a t ih =>
    simp only [List.map_cons, List.nodup_cons] at hn
    rw [List.filter_cons]
    by_cases hk : keyf a = k
    · have ht : t.filter (fun r => decide (keyf r = k)) = [] := by
        rw [List.filter_eq_nil_iff]
        intro b hb
        simp only [decide_eq_true_eq]
        intro hbk
        exact hn.1 (hk ▸ hbk ▸ List.mem_map_of_mem keyf hb)
      simp [hk, ht]
    · simp only [hk, decide_False, Bool.false_eq_true, if_false]
      exact ih hn.2

theorem leftJoinRain_cons (l : NAgriRow) (ls : List NAgriRow) (rain : List AnnualRow) :
    leftJoinRain (l :: ls) rain = leftJoinRain [l] rain ++ leftJoinRain ls rain := by
  simp [leftJoinRain]

theorem leftJoinSoil_cons (l : M1Row) (ls : List M1Row) (soil : List AnnualRow) :
    leftJoinSoil (l :: ls) soil = leftJoinSoil [l] soil ++ leftJoinSoil ls soil := by
  simp [leftJoinSoil]

theorem leftJoinRain_single_count (l : NAgriRow) (rain : List AnnualRow)
    (hr : (rain.map keyA).Nodup) (k : Int × String × String) :
    countKey1 (leftJoinRain [l] rain) k = if keyN l = k then 1 else 0 := by
  have hle := filter_key_len_le_one keyA rain hr (keyN l)
  cases hms : rain.filter (fun r => decide (keyA r = keyN l)) with
  | nil =>
    unfold countKey1 leftJoinRain
    simp only [List.flatMap_cons, List.flatMap_nil, List.append_nil, hms]
    by_cases hk : keyN l = k
    · simp [List.filter_cons, key1, keyN] at hk ⊢
      simp [hk]
    · simp [List.filter_cons, key1, keyN] at hk ⊢
      simp [hk]
  | cons m ms' =>
    rw [hms] at hle
    simp only [List.length_cons] at hle
    have hnil : ms' = [] := List.eq_nil_of_length_eq_zero (by omega)
    subst hnil
    unfold countKey1 leftJoinRain
    simp only [List.flatMap_cons, List.flatMap_nil, List.append_nil, hms]
    by_cases hk : keyN l = k
    · simp [List.filter_cons, key1, keyN] at hk ⊢
      simp [hk]
    · simp [List.filter_cons, key1, keyN] at hk ⊢
      simp [hk]

theorem leftJoinSoil_single_count (l : M1Row) (soil : List AnnualRow)
    (hs : (soil.map keyA).Nodup) (k : Int × String × String) :
    countKeyM (leftJoinSoil [l] soil) k = if key1 l = k then 1 else 0 := by
  have hle := filter_key_len_le_one keyA soil hs (key1 l)
  cases hms : soil.filter (fun r => decide (keyA r = key1 l)) with
  | nil =>
    unfold countKeyM leftJoinSoil
    simp only [List.flatMap_cons, List.flatMap_nil, List.append_nil, hms]
    by_cases hk : key1 l = k
    · simp [List.filter_cons, keyM, key1] at hk ⊢
      simp [hk]
    · simp [List.filter_cons, keyM, key1] at hk ⊢
      simp [hk]
  | cons m ms' =>
    rw [hms] at hle
    simp only [List.length_cons] at hle
    have hnil : ms' = [] := List.eq_nil_of_length_eq_zero (by omega)
    subst hnil
    unfold countKeyM leftJoinSoil
    simp only [List.flatMap_cons, List.flatMap_nil, List.append_nil, hms]
    by_cases hk : key1 l = k
    · simp [List.filter_cons, keyM, key1] at hk ⊢
      simp [hk]
    · simp [List.filter_cons, keyM, key1] at hk ⊢
      simp [hk]

theorem leftJoinRain_count (agri : List NAgriRow) (rain : List AnnualRow)
    (hr : (rain.map keyA).Nodup) (k : Int × String × String) :
    countKey1 (leftJoinRain agri rain) k = countKeyN agri k := by
  induction agri with
  | nil => rfl
  | cons l ls ih =>
    rw [leftJoinRain_cons]
    unfold countKey1 countKeyN
    rw [List.filter_append, List.length_append, List.filter_cons]
    have h1 := leftJoinRain_single_count l rain hr k
    unfold countKey1 at h1
    rw [h1]
    unfold countKey1 countKeyN at ih
    rw [ih]
    by_cases hk : keyN l = k
    · simp [hk]
      omega
    · simp [hk]

theorem leftJoinSoil_count (m1 : List M1Row) (soil : List AnnualRow)
    (hs : (soil.map keyA).Nodup) (k : Int × String × String) :
    countKeyM (leftJoinSoil m1 soil) k = countKey1 m1 k := by
  induction m1 with
  | nil => rfl
  | cons l ls ih =>
    rw [leftJoinSoil_cons]
    unfold countKeyM countKey1
    rw [List.filter_append, List.length_append, List.filter_cons]
    have h1 := leftJoinSoil_single_count l soil hs k
    unfold countKeyM at h1
    rw [h1]
    unfold countKeyM countKey1 at ih
    rw [ih]
    by_cases hk : key1 l = k
    · simp [hk]
      omega
    · simp [hk]

theorem mem_leftJoinRain_unmatched (agri : List NAgriRow) (rain : List AnnualRow)
    (l : NAgriRow) (hl : l ∈ agri)
    (hnone : ∀ x ∈ rain, keyA x ≠ keyN l) :
    (⟨l.state, l.district, l.year, l.crop, none⟩ : M1Row) ∈ leftJoinRain agri rain := by
  unfold leftJoinRain
  rw [List.mem_flatMap]
  refine ⟨l, hl, ?_⟩
  have hf : rain.filter (fun r => decide (keyA r = keyN l)) = [] := by
    rw [List.filter_eq_nil_iff]
    intro b hb
    simp only [decide_eq_true_eq]
    exact hnone b hb
  rw [hf]
  simp

theorem mem_leftJoinSoil_unmatched (m1 : List M1Row) (soil : List AnnualRow)
    (l : M1Row) (hl : l ∈ m1)
    (hnone : ∀ x ∈ soil, keyA x ≠ key1 l) :
    (⟨l.state, l.district, l.year, l.crop, l.rain, none⟩ : MRow) ∈ leftJoinSoil m1 soil := by
  unfold leftJoinSoil
  rw [List.mem_flatMap]
  refine ⟨l, hl, ?_⟩
  have hf : soil.filter (fun r => decide (keyA r = key1 l)) = [] := by
    rw [List.filter_eq_nil_iff]
    intro b hb
    simp only [decide_eq_true_eq]
    exact hnone b hb
  rw [hf]
  simp

/-- The C1 counterexample crop table: one row for (2010, Maharashtra, Pune). -/
def c1Agri : List AgriRow := [⟨"Maharashtra", "Pune", Cell.num 2010, 100⟩]

/-- The C1 counterexample rainfall table: two raw spellings of the same
district that only normalization identifies. -/
def c1Rain : List RainRow :=
  [⟨" Maharashtra", "pune ", "2010-01-01", Cell.num 2010, 1⟩,
   ⟨"Maharashtra", "Pune", "2010-01-02", Cell.num 2010, 2⟩]

/-- C1 counterexample: the crop source holds exactly one row for the
triple (2010, Maharashtra, Pune), yet the merged master table holds two
rows for it — the aggregation groups the two raw rainfall spellings
separately, normalization then maps both annual rows to the same key,
and the left join duplicates the crop row. So a crop triple is not
always represented by exactly one merged row. -/
theorem merge_duplicates_counterexample :
    countKeyN (normAgri c1Agri) (2010, "Maharashtra", "Pune") = 1 ∧
    (loadAndPrepare c1Agri c1Rain []).map
        (fun m => countKeyM m (2010, "Maharashtra", "Pune")) = Except.ok 2 := by
  exact ⟨rfl, rfl⟩

/-- C1 (amended): provided each aggregate table has at most one row per
key, every key occurs in the merged table exactly as often as in the
normalized crop table — in particular exactly once when the crop source
has one row for it; and unconditionally a crop row with no matching
rainfall and no matching soil aggregate is retained with null aggregate
columns. -/
theorem merge_cardinality (agri : List NAgriRow) (rain soil : List AnnualRow)
    (hr : (rain.map keyA).Nodup) (hs : (soil.map keyA).Nodup)
    (k : Int × String × String) :
    countKeyM (mergeTables agri rain soil) k = countKeyN agri k ∧
    (∀ l ∈ agri, (∀ x ∈ rain, keyA x ≠ keyN l) → (∀ x ∈ soil, keyA x ≠ keyN l) →
      (⟨l.state, l.district, l.year, l.crop, none, none⟩ : MRow)
        ∈ mergeTables agri rain soil) := by
  constructor
  · unfold mergeTables
    rw [leftJoinSoil_count _ _ hs, leftJoinRain_count _ _ hr]
  · intro l hl hrain hsoil
    unfold mergeTables
    have h1 : (⟨l.state, l.district, l.year, l.crop, none⟩ : M1Row)
        ∈ leftJoinRain agri rain := mem_leftJoinRain_unmatched agri rain l hl hrain
    have h2 := mem_leftJoinSoil_unmatched (leftJoinRain agri rain) soil
      ⟨l.state, l.district, l.year, l.crop, none⟩ h1 (by simpa [key1, keyN] using hsoil)
    simpa using h2

/-- Witness for `merge_cardinality` at a concrete instance. -/
theorem merge_cardinality_witness :
    countKeyM (mergeTables [⟨"Maharashtra", "Pune", 2010, 100⟩]
        [⟨2010, "Maharashtra", "Pune", 5⟩] []) (2010, "Maharashtra", "Pune")
      = countKeyN [⟨"Maharashtra", "Pune", 2010, 100⟩] (2010, "Maharashtra", "Pune") ∧
    (∀ l ∈ [(⟨"Maharashtra", "Pune", 2010, 100⟩ : NAgriRow)],
      (∀ x ∈ [(⟨2010, "Maharashtra", "Pune", 5⟩ : AnnualRow)], keyA x ≠ keyN l) →
      (∀ x ∈ ([] : List AnnualRow), keyA x ≠ keyN l) →
      (⟨l.state, l.district, l.year, l.crop, none, none⟩ : MRow)
        ∈ mergeTables [⟨"Maharashtra", "Pune", 2010, 100⟩]
            [⟨2010, "Maharashtra", "Pune", 5⟩] []) :=
  merge_cardinality [⟨"Maharashtra", "Pune", 2010, 100⟩]
    [⟨2010, "Maharashtra", "Pune", 5⟩] [] (by decide) (by decide)
    (2010, "Maharashtra", "Pune")

/-! ### Order-independence of the aggregation (claim C8) -/

/-- The annual value an aggregate table reports for a key: the sum of
the values of its rows carrying that key (zero when absent; exactly the
single row's value when groupby produced the table). -/
def annualLookup (t : List AnnualRow) (k : Int × String × String) : ℚ :=
  ((t.filter (fun r => decide (keyA r = k))).map (fun r => r.val)).sum

theorem mapME_cons_ok {β γ : Type} (f : β → Except String γ) (a : β) (l : List β)
    (b : List γ) (h : mapME f (a :: l) = .ok b) :
    ∃ c cs, f a = .ok c ∧ mapME f l = .ok cs ∧ b = c :: cs := by
  unfold mapME at h
  cases hfa : f a with
  | error e => rw [hfa] at h; exact Except.noConfusion h
  | ok c =>
    rw [hfa] at h
    cases hml : mapME f l with
    | error e => rw [hml] at h; exact Except.noConfusion h
    | ok cs =>
      rw [hml] at h
      exact ⟨c, cs, rfl, rfl, (Except.ok.inj h).symm⟩

theorem mapME_perm {β γ : Type} (f : β → Except String γ) {l1 l2 : List β}
    (hperm : l1.Perm l2) :
    ∀ b1, mapME f l1 = .ok b1 → ∃ b2, mapME f l2 = .ok b2 ∧ b1.Perm b2 := by
  induction hperm with
  | nil =>
    intro b1 h1
    exact ⟨b1, h1, List.Perm.refl b1⟩
  | cons x hp ih =>
    intro b1 h1
    obtain ⟨c, cs, hfx, hcs, hb⟩ := mapME_cons_ok f x _ b1 h1
    obtain ⟨cs2, hcs2, hpcs⟩ := ih cs hcs
    refine ⟨c :: cs2, ?_, ?_⟩
    · unfold mapME
      rw [hfx, hcs2]
    · rw [hb]
      exact hpcs.cons c
  | swap x y l =>
    intro b1 h1
    obtain ⟨cy, rest, hfy, hrest, hb⟩ := mapME_cons_ok f y _ b1 h1
    obtain ⟨cx, cs, hfx, hcs, hb2⟩ := mapME_cons_ok f x _ rest hrest
    refine ⟨cx :: cy :: cs, ?_, ?_⟩
    · unfold mapME
      rw [hfx]
      unfold mapME
      rw [hfy, hcs]
    · rw [hb, hb2]
      exact List.Perm.swap cx cy cs
  | trans hp1 hp2 ih1 ih2 =>
    intro b1 h1
    obtain ⟨bm, hbm, hperm1⟩ := ih1 b1 h1
    obtain ⟨b2, hb2, hperm2⟩ := ih2 bm hbm
    exact ⟨b2, hb2, hperm1.trans hperm2⟩

theorem mem_dedupKeys (l : List (Int × String × String)) (k : Int × String × String) :
    k ∈ dedupKeys l ↔ k ∈ l := by
  induction l with
  | nil => simp [dedupKeys]
  | cons a t ih =>
    simp only [dedupKeys, List.mem_cons, List.mem_filter, decide_eq_true_eq, ih]
    constructor
    · rintro (h | hm)
      · exact Or.inl h
      · exact Or.inr hm.1
    · rintro (h | h)
      · exact Or.inl h
      · by_cases hka : k = a
        · exact Or.inl hka
        · exact Or.inr ⟨h, hka⟩

theorem nodup_dedupKeys (l : List (Int × String × String)) : (dedupKeys l).Nodup := by
  induction l with
  | nil => simp [dedupKeys]
  | cons a t ih =>
    rw [dedupKeys, List.nodup_cons]
    constructor
    · intro hmem
      rw [List.mem_filter] at hmem
      simp at hmem
    · exact ih.filter _

theorem filter_eq_of_nodup (l : List (Int × String × String)) (hl : l.Nodup)
    (k : Int × String × String) :
    l.filter (fun x => decide (x = k)) = if k ∈ l then [k] else [] := by
  induction l with
  | nil => simp
  | cons a t ih =>
    rw [List.nodup_cons] at hl
    rw [List.filter_cons]
    by_cases hak : a = k
    · subst hak
      have ht : t.filter (fun x => decide (x = a)) = [] := by
        rw [List.filter_eq_nil_iff]
        intro b hb
        simp only [decide_eq_true_eq]
        rintro rfl
        exact hl.1 hb
      simp [ht]
    · have hd : decide (a = k) = false := by simp [hak]
      rw [hd]
      simp only [Bool.false_eq_true, if_false]
      rw [ih hl.2]
      have hka : ¬k = a := fun h => hak h.symm
      by_cases hkt : k ∈ t
      · rw [if_pos hkt, if_pos (List.mem_cons_of_mem a hkt)]
      · rw [if_neg hkt, if_neg (by simp [List.mem_cons, hka, hkt])]

theorem keySum_of_key_absent (pairs : List ((Int × String × String) × ℚ))
    (k : Int × String × String) (hk : k ∉ pairs.map Prod.fst) : keySum pairs k = 0 := by
  unfold keySum
  have hf : pairs.filter (fun p => decide (p.1 = k)) = [] := by
    rw [List.filter_eq_nil_iff]
    intro p hp
    simp only [decide_eq_true_eq]
    intro hpk
    exact hk (hpk ▸ List.mem_map_of_mem Prod.fst hp)
  rw [hf]
  rfl

theorem annualLookup_groupBySum (pairs : List ((Int × String × String) × ℚ))
    (k : Int × String × String) :
    annualLookup (groupBySum pairs) k = keySum pairs k := by
  unfold annualLookup groupBySum
  rw [List.filter_map]
  have hpred : ∀ x ∈ dedupKeys (pairs.map Prod.fst),
      ((fun r => decide (keyA r = k)) ∘
        (fun q => (⟨q.1, q.2.1, q.2.2, keySum pairs q⟩ : AnnualRow))) x
        = (fun x => decide (x = k)) x := by
    rintro ⟨a, b, c⟩ hx
    simp [keyA]
  rw [List.filter_congr hpred]
  rw [filter_eq_of_nodup _ (nodup_dedupKeys _) k]
  by_cases hk : k ∈ dedupKeys (pairs.map Prod.fst)
  · rw [if_pos hk]
    obtain ⟨a, b, c⟩ := k
    simp [keyA]
  · rw [if_neg hk]
    rw [mem_dedupKeys] at hk
    rw [keySum_of_key_absent pairs k hk]
    rfl

theorem keySum_perm {p1 p2 : List ((Int × String × String) × ℚ)} (h : p1.Perm p2)
    (k : Int × String × String) : keySum p1 k = keySum p2 k :=
  List.Perm.sum_eq ((h.filter _).map _)

theorem rainAnnual_ok (rows : List RainRow) (t : List AnnualRow)
    (h : rainAnnual rows = .ok t) :
    ∃ pairs, mapME rainPair rows = .ok pairs ∧ t = groupBySum pairs := by
  unfold rainAnnual at h
  cases hm : mapME rainPair rows with
  | error e =>
    rw [hm] at h
    exact Except.noConfusion h
  | ok pairs =>
    rw [hm] at h
    exact ⟨pairs, rfl, (Except.ok.inj h).symm⟩

/-- C8 (amended): over exact arithmetic the rainfall aggregation is
order-independent — for any two row-permuted rainfall inputs whose
aggregation succeeds, the aggregated tables report the same exact annual
sum for every (Year, State, District). The float64 accumulation the
program actually performs sums each group in row order and is not
order-independent; see the counterexample below. -/
theorem rain_sum_perm_invariant (rows1 rows2 : List RainRow)
    (t1 t2 : List AnnualRow) (k : Int × String × String)
    (hp : rows1.Perm rows2)
    (h1 : rainAnnual rows1 = .ok t1) (h2 : rainAnnual rows2 = .ok t2) :
    annualLookup t1 k = annualLookup t2 k := by
  obtain ⟨p1, hp1, ht1⟩ := rainAnnual_ok rows1 t1 h1
  obtain ⟨p2, hp2, ht2⟩ := rainAnnual_ok rows2 t2 h2
  obtain ⟨p2', hp2', hperm⟩ := mapME_perm rainPair hp p1 hp1
  rw [hp2'] at hp2
  have hpp : p2 = p2' := (Except.ok.inj hp2).symm
  subst hpp
  rw [ht1, ht2, annualLookup_groupBySum, annualLookup_groupBySum]
  exact keySum_perm hperm k

/-- The C8 witness rows: two daily observations in distinct districts. -/
def c8RowsA : List RainRow :=
  [⟨"S", "D1", "2010-01-01", Cell.num 2010, 3⟩,
   ⟨"S", "D2", "2010-01-02", Cell.num 2010, 4⟩]

/-- The same rows in the opposite order. -/
def c8RowsB : List RainRow :=
  [⟨"S", "D2", "2010-01-02", Cell.num 2010, 4⟩,
   ⟨"S", "D1", "2010-01-01", Cell.num 2010, 3⟩]

/-- The (key, measure) pairs of `c8RowsA`. -/
def c8PairsA : List ((Int × String × String) × ℚ) :=
  [((2010, "S", "D1"), 3), ((2010, "S", "D2"), 4)]

/-- The (key, measure) pairs of `c8RowsB`. -/
def c8PairsB : List ((Int × String × String) × ℚ) :=
  [((2010, "S", "D2"), 4), ((2010, "S", "D1"), 3)]

/-- Witness for `rain_sum_perm_invariant` at a concrete permuted pair. -/
theorem rain_sum_perm_invariant_witness :
    annualLookup [⟨2010, "S", "D1", 3⟩, ⟨2010, "S", "D2", 4⟩] (2010, "S", "D1")
      = annualLookup [⟨2010, "S", "D2", 4⟩, ⟨2010, "S", "D1", 3⟩] (2010, "S", "D1") := by
  refine rain_sum_perm_invariant c8RowsA c8RowsB _ _ (2010, "S", "D1") (by decide) ?_ ?_
  · have h0 : rainAnnual c8RowsA
        = .ok [⟨2010, "S", "D1", keySum c8PairsA (2010, "S", "D1")⟩,
               ⟨2010, "S", "D2", keySum c8PairsA (2010, "S", "D2")⟩] := rfl
    rw [h0]
    norm_num [keySum, c8PairsA, List.filter_cons,
      show ("D2" : String) ≠ "D1" by decide, show ("D1" : String) ≠ "D2" by decide]
  · have h0 : rainAnnual c8RowsB
        = .ok [⟨2010, "S", "D2", keySum c8PairsB (2010, "S", "D2")⟩,
               ⟨2010, "S", "D1", keySum c8PairsB (2010, "S", "D1")⟩] := rfl
    rw [h0]
    norm_num [keySum, c8PairsB, List.filter_cons,
      show ("D2" : String) ≠ "D1" by decide, show ("D1" : String) ≠ "D2" by decide]

/-! ### Float64 accumulation (the groupby sum the program performs) -/

/-- Bit length of a natural number, with explicit recursion fuel (1100
comfortably exceeds the binary64 exponent range). -/
def bitLen : Nat → Nat → Nat
  | _, 0 => 0
  | 0, _ + 1 => 0
  | fuel + 1, n + 1 => bitLen fuel ((n + 1) / 2) + 1

/-- Modelled from IEEE-754 binary64: round an integer to 53 significant
bits, to nearest, ties to even. Applied to the numerator of a dyadic
rational this is the binary64 rounding of the value, since a
power-of-two denominator only shifts the exponent. -/
def roundNumInt (num : Int) : Int :=
  let n := num.natAbs
  let L := bitLen 1100 n
  if L ≤ 53 then num
  else
    let shift := L - 53
    let q := n / 2 ^ shift
    let r := n % 2 ^ shift
    let half := 2 ^ (shift - 1)
    let m := if half < r then q + 1
      else if r < half then q
      else if q % 2 = 0 then q else q + 1
    (if num < 0 then -1 else 1) * ((m * 2 ^ shift : Nat) : Int)

/-- Binary64 rounding of a dyadic rational (float values and their sums
are always dyadic). -/
def roundF (q : ℚ) : ℚ := (roundNumInt q.num : ℚ) / (q.den : ℚ)

/-- One float64 addition: the exact sum, correctly rounded. -/
def addF (a b : ℚ) : ℚ := roundF (a + b)

/-- The float64 semantics of the groupby sum of line 57: the group's
values are accumulated left-to-right in row order with binary64
additions, starting from zero. -/
def keySumF (pairs : List ((Int × String × String) × ℚ)) (k : Int × String × String) : ℚ :=
  ((pairs.filter (fun p => decide (p.1 = k))).map Prod.snd).foldl addF 0

/-- `groupby([...]).sum()` over (key, measure) pairs with float64
accumulation. -/
def groupBySumF (pairs : List ((Int × String × String) × ℚ)) : List AnnualRow :=
  (dedupKeys (pairs.map Prod.fst)).map fun k => ⟨k.1, k.2.1, k.2.2, keySumF pairs k⟩

/-- The rainfall aggregation of lines 51-58 with the float64 semantics
of the groupby sum made explicit. -/
def rainAnnualF (rows : List RainRow) : Except String (List AnnualRow) :=
  match mapME rainPair rows with
  | .error e => .error e
  | .ok pairs => .ok (groupBySumF pairs)

theorem addF_zero_big : addF 0 10000000000000000 = 10000000000000000 := by
  have hsum : (0 : ℚ) + 10000000000000000 = 10000000000000000 := by norm_num
  rw [addF, hsum, roundF]
  have hn : (10000000000000000 : ℚ).num = 10000000000000000 := rfl
  have hd : (10000000000000000 : ℚ).den = 1 := rfl
  rw [hn, hd]
  have hr : roundNumInt 10000000000000000 = 10000000000000000 := by decide
  rw [hr]
  norm_num

theorem addF_big_one : addF 10000000000000000 1 = 10000000000000000 := by
  have hsum : (10000000000000000 : ℚ) + 1 = 10000000000000001 := by norm_num
  rw [addF, hsum, roundF]
  have hn : (10000000000000001 : ℚ).num = 10000000000000001 := rfl
  have hd : (10000000000000001 : ℚ).den = 1 := rfl
  rw [hn, hd]
  have hr : roundNumInt 10000000000000001 = 10000000000000000 := by decide
  rw [hr]
  norm_num

theorem addF_big_negbig : addF 10000000000000000 (-10000000000000000) = 0 := by
  have hsum : (10000000000000000 : ℚ) + -10000000000000000 = 0 := by norm_num
  rw [addF, hsum, roundF]
  have hn : (0 : ℚ).num = 0 := rfl
  have hd : (0 : ℚ).den = 1 := rfl
  rw [hn, hd]
  have hr : roundNumInt 0 = 0 := by decide
  rw [hr]
  norm_num

theorem addF_zero_one : addF 0 1 = 1 := by
  have hsum : (0 : ℚ) + 1 = 1 := by norm_num
  rw [addF, hsum, roundF]
  have hn : (1 : ℚ).num = 1 := rfl
  have hd : (1 : ℚ).den = 1 := rfl
  rw [hn, hd]
  have hr : roundNumInt 1 = 1 := by decide
  rw [hr]
  norm_num

/-- The C8 float rows: daily values 1e16, 1.0, -1e16 under one key. -/
def c8fRows1 : List RainRow :=
  [⟨"S", "D", "2010-01-01", Cell.num 2010, 10000000000000000⟩,
   ⟨"S", "D", "2010-01-02", Cell.num 2010, 1⟩,
   ⟨"S", "D", "2010-01-03", Cell.num 2010, -10000000000000000⟩]

/-- The same rows with the last two swapped. -/
def c8fRows2 : List RainRow :=
  [⟨"S", "D", "2010-01-01", Cell.num 2010, 10000000000000000⟩,
   ⟨"S", "D", "2010-01-03", Cell.num 2010, -10000000000000000⟩,
   ⟨"S", "D", "2010-01-02", Cell.num 2010, 1⟩]

/-- The (key, measure) pairs of `c8fRows1`. -/
def c8fPairs1 : List ((Int × String × String) × ℚ) :=
  [((2010, "S", "D"), 10000000000000000), ((2010, "S", "D"), 1),
   ((2010, "S", "D"), -10000000000000000)]

/-- The (key, measure) pairs of `c8fRows2`. -/
def c8fPairs2 : List ((Int × String × String) × ℚ) :=
  [((2010, "S", "D"), 10000000000000000), ((2010, "S", "D"), -10000000000000000),
   ((2010, "S", "D"), 1)]

theorem keySumF_rows1 : keySumF c8fPairs1 (2010, "S", "D") = 0 := by
  have h0 : keySumF c8fPairs1 (2010, "S", "D")
      = List.foldl addF 0 [(10000000000000000 : ℚ), 1, -10000000000000000] := rfl
  rw [h0, List.foldl_cons, addF_zero_big, List.foldl_cons, addF_big_one,
    List.foldl_cons, addF_big_negbig, List.foldl_nil]

theorem keySumF_rows2 : keySumF c8fPairs2 (2010, "S", "D") = 1 := by
  have h0 : keySumF c8fPairs2 (2010, "S", "D")
      = List.foldl addF 0 [(10000000000000000 : ℚ), -10000000000000000, 1] := rfl
  rw [h0, List.foldl_cons, addF_zero_big, List.foldl_cons, addF_big_negbig,
    List.foldl_cons, addF_zero_one, List.foldl_nil]

/-- C8 counterexample: the program's groupby sum accumulates each
group's float64 values in row order, and binary64 addition is not
associative — for the daily values 1e16, 1.0, -1e16 under one key the
original row order yields annual sum 0.0 while a permutation of the same
rows yields 1.0. Permuting the input rows of the daily rainfall source
therefore does not always yield identical annual sums per key. -/
theorem float_sum_order_counterexample :
    c8fRows1.Perm c8fRows2 ∧
    rainAnnualF c8fRows1 = .ok [⟨2010, "S", "D", 0⟩] ∧
    rainAnnualF c8fRows2 = .ok [⟨2010, "S", "D", 1⟩] ∧
    rainAnnualF c8fRows1 ≠ rainAnnualF c8fRows2 := by
  have hb : rainAnnualF c8fRows1
      = .ok [⟨2010, "S", "D", keySumF c8fPairs1 (2010, "S", "D")⟩] := rfl
  have hc : rainAnnualF c8fRows2
      = .ok [⟨2010, "S", "D", keySumF c8fPairs2 (2010, "S", "D")⟩] := rfl
  refine ⟨?_, ?_, ?_, ?_⟩
  · decide
  · rw [hb, keySumF_rows1]
  · rw [hc, keySumF_rows2]
  · rw [hb, keySumF_rows1, hc, keySumF_rows2]
    simp only [ne_eq, Except.ok.injEq, List.cons.injEq, AnnualRow.mk.injEq]
    norm_num

/-! ### The model-backend call (`query_model`, lines 109-168 of app.py) -/

/-- The outcome the transport yields for one attempt: an HTTP response
with a status code and (for parseable bodies) the extracted candidate
text, a `requests` exception during the POST, or any other exception.
`resp code none` is a response whose body fails to parse as JSON;
`resp code (some none)` parses but lacks the candidates structure;
`resp code (some (some t))` carries generated text `t`. -/
inductive Outcome where
  | resp (code : Nat) (body : Option (Option String))
  | reqExc (msg : String)
  | otherExc (msg : String)
deriving DecidableEq

/-- The status codes line 133 treats as retryable server errors. -/
def retryStatusCodes : List Nat := [500, 502, 503, 504]

/-- The observable result of one `query_model` call: the returned
(text, error) pair, instrumented with the number of attempts consumed
and the back-off delays slept. -/
structure QMResult where
  text : Option String
  error : Option String
  attempts : Nat
  sleeps : List Nat
deriving DecidableEq

/-- The retry loop of lines 125-168, structurally recursing on the
number of loop iterations left (3 at entry); `attempt` is the 0-based
loop index and `delay` the current back-off delay. A 50x status sleeps,
doubles the delay and retries (even on the last attempt, after which the
loop ends in the terminal service-unavailable error of line 168); any
other bad status raises in `raise_for_status` and is caught by the
`RequestException` handler of line 156, which sleeps and retries unless
attempts are exhausted; a request exception likewise; a body that fails
to parse raises JSONDecodeError — a RequestException subclass — in
`response.json()` and is caught and retried by the same handler; a
well-formed 2xx response returns the text; a parsed body without the
candidates structure, and any other exception, return an error without
retrying. -/
def queryModelGo (env : Nat → Outcome) : Nat → Nat → Nat → List Nat → QMResult
  | 0, attempt, _, sleeps =>
    ⟨none, some "Error: Service unavailable after 3 attempts.", attempt, sleeps⟩
  | remaining + 1, attempt, delay, sleeps =>
    match env attempt with
    | .resp code body =>
      if code ∈ retryStatusCodes then
        queryModelGo env remaining (attempt + 1) (delay * 2) (sleeps ++ [delay])
      else if 400 ≤ code ∧ code < 600 then
        if attempt < 2 then
          queryModelGo env remaining (attempt + 1) (delay * 2) (sleeps ++ [delay])
        else
          ⟨none, some ("Error: Could not connect to model API after 3 attempts. HTTP "
            ++ toString code), attempt + 1, sleeps⟩
      else
        match body with
        | none =>
          if attempt < 2 then
            queryModelGo env remaining (attempt + 1) (delay * 2) (sleeps ++ [delay])
          else
            ⟨none, some "Error: Could not connect to model API after 3 attempts. JSONDecodeError",
              attempt + 1, sleeps⟩
        | some none =>
          ⟨none, some "Error: Unexpected API response format: Unknown", attempt + 1, sleeps⟩
        | some (some t) => ⟨some t, none, attempt + 1, sleeps⟩
    | .reqExc m =>
      if attempt < 2 then
        queryModelGo env remaining (attempt + 1) (delay * 2) (sleeps ++ [delay])
      else
        ⟨none, some ("Error: Could not connect to model API after 3 attempts. " ++ m),
          attempt + 1, sleeps⟩
    | .otherExc m => ⟨none, some ("An unexpected error occurred: " ++ m), attempt + 1, sleeps⟩

/-- `query_model`: up to 3 attempts, initial delay 1 second. -/
def queryModel (env : Nat → Outcome) : QMResult := queryModelGo env 3 0 1 []

theorem queryModelGo_exclusive (env : Nat → Outcome) :
    ∀ rem att d s, (queryModelGo env rem att d s).text.isSome
      = (queryModelGo env rem att d s).error.isNone := by
  intro rem
  induction rem with
  | zero => intro att d s; rfl
  | succ n ih =>
    intro att d s
    rw [queryModelGo]
    cases env att with
    | resp code body =>
      by_cases h1 : code ∈ retryStatusCodes
      · simp only [h1, if_true]
        exact ih (att + 1) (d * 2) (s ++ [d])
      · simp only [h1, if_false]
        by_cases h2 : 400 ≤ code ∧ code < 600
        · simp only [h2, if_true]
          by_cases h3 : att < 2
          · simp only [h3, if_true]
            exact ih (att + 1) (d * 2) (s ++ [d])
          · simp only [h3, if_false]
            rfl
        · simp only [h2, if_false]
          cases body with
          | none =>
            by_cases h3 : att < 2
            · simp only [h3, if_true]
              exact ih (att + 1) (d * 2) (s ++ [d])
            · simp only [h3, if_false]
              rfl
          | some b =>
            cases b with
            | none => rfl
            | some t => rfl
    | reqExc m =>
      by_cases h3 : att < 2
      · simp only [h3, if_true]
        exact ih (att + 1) (d * 2) (s ++ [d])
      · simp only [h3, if_false]
        rfl
    | otherExc m => rfl

theorem queryModelGo_attempts_le (env : Nat → Outcome) :
    ∀ rem att d s, (queryModelGo env rem att d s).attempts ≤ att + rem := by
  intro rem
  induction rem with
  | zero => intro att d s; show att ≤ att + 0; omega
  | succ n ih =>
    intro att d s
    rw [queryModelGo]
    cases env att with
    | resp code body =>
      by_cases h1 : code ∈ retryStatusCodes
      · simp only [if_pos h1]
        have := ih (att + 1) (d * 2) (s ++ [d])
        omega
      · simp only [if_neg h1]
        by_cases h2 : 400 ≤ code ∧ code < 600
        · simp only [if_pos h2]
          by_cases h3 : att < 2
          · simp only [if_pos h3]
            have := ih (att + 1) (d * 2) (s ++ [d])
            omega
          · simp only [if_neg h3]
            show att + 1 ≤ att + (n + 1)
            omega
        · simp only [if_neg h2]
          cases body with
          | none =>
            by_cases h3 : att < 2
            · simp only [if_pos h3]
              have := ih (att + 1) (d * 2) (s ++ [d])
              omega
            · simp only [if_neg h3]
              show att + 1 ≤ att + (n + 1)
              omega
          | some b =>
            cases b with
            | none => show att + 1 ≤ att + (n + 1); omega
            | some t => show att + 1 ≤ att + (n + 1); omega
    | reqExc m =>
      by_cases h3 : att < 2
      · simp only [if_pos h3]
        have := ih (att + 1) (d * 2) (s ++ [d])
        omega
      · simp only [if_neg h3]
        show att + 1 ≤ att + (n + 1)
        omega
    | otherExc m => show att + 1 ≤ att + (n + 1); omega

/-- The exponentially doubling delay schedule of a run of the loop. -/
def geomDelays : Nat → Nat → List Nat
  | _, 0 => []
  | d, n + 1 => d :: geomDelays (d * 2) n

theorem prefix_cons {a : Nat} {l1 l2 : List Nat} (h : l1 <+: l2) : a :: l1 <+: a :: l2 := by
  obtain ⟨t, ht⟩ := h
  exact ⟨t, by simp [ht]⟩

theorem queryModelGo_sleeps (env : Nat → Outcome) :
    ∀ rem att d s, ∃ ext, (queryModelGo env rem att d s).sleeps = s ++ ext
      ∧ ext <+: geomDelays d rem := by
  intro rem
  induction rem with
  | zero =>
    intro att d s
    exact ⟨[], by simp [queryModelGo], List.nil_prefix⟩
  | succ n ih =>
    intro att d s
    rw [queryModelGo]
    cases env att with
    | resp code body =>
      by_cases h1 : code ∈ retryStatusCodes
      · simp only [if_pos h1]
        obtain ⟨ext, hext, hpre⟩ := ih (att + 1) (d * 2) (s ++ [d])
        exact ⟨d :: ext, by simp [hext], prefix_cons hpre⟩
      · simp only [if_neg h1]
        by_cases h2 : 400 ≤ code ∧ code < 600
        · simp only [if_pos h2]
          by_cases h3 : att < 2
          · simp only [if_pos h3]
            obtain ⟨ext, hext, hpre⟩ := ih (att + 1) (d * 2) (s ++ [d])
            exact ⟨d :: ext, by simp [hext], prefix_cons hpre⟩
          · simp only [if_neg h3]
            exact ⟨[], by simp, List.nil_prefix⟩
        · simp only [if_neg h2]
          cases body with
          | none =>
            by_cases h3 : att < 2
            · simp only [if_pos h3]
              obtain ⟨ext, hext, hpre⟩ := ih (att + 1) (d * 2) (s ++ [d])
              exact ⟨d :: ext, by simp [hext], prefix_cons hpre⟩
            · simp only [if_neg h3]
              exact ⟨[], by simp, List.nil_prefix⟩
          | some b =>
            cases b with
            | none => exact ⟨[], by simp, List.nil_prefix⟩
            | some t => exact ⟨[], by simp, List.nil_prefix⟩
    | reqExc m =>
      by_cases h3 : att < 2
      · simp only [if_pos h3]
        obtain ⟨ext, hext, hpre⟩ := ih (att + 1) (d * 2) (s ++ [d])
        exact ⟨d :: ext, by simp [hext], prefix_cons hpre⟩
      · simp only [if_neg h3]
        exact ⟨[], by simp, List.nil_prefix⟩
    | otherExc m => exact ⟨[], by simp, List.nil_prefix⟩

/-- Whether one attempt's outcome is one the loop retries: a 50x server
status; any other bad HTTP status (raised by `raise_for_status` and then
caught as a request exception); a response body that fails to parse (the
JSONDecodeError raised by `response.json()` is a RequestException
subclass and is caught by the same handler); or a request exception. -/
def retryableOutcome : Outcome → Bool
  | .resp code body =>
    decide (code ∈ retryStatusCodes) || decide (400 ≤ code ∧ code < 600) ||
      decide (body = none)
  | .reqExc _ => true
  | .otherExc _ => false

theorem queryModelGo_all_retryable (env : Nat → Outcome)
    (henv : ∀ i, retryableOutcome (env i) = true) :
    ∀ rem att d s, att + rem = 3 → 1 ≤ rem →
      (queryModelGo env rem att d s).attempts = 3 ∧
      (queryModelGo env rem att d s).text = none ∧
      (queryModelGo env rem att d s).error ≠ none := by
  intro rem
  induction rem with
  | zero => intro att d s h3 h1; omega
  | succ n ih =>
    intro att d s h3 h1
    rw [queryModelGo]
    have hr := henv att
    cases henvatt : env att with
    | resp code body =>
      rw [henvatt] at hr
      unfold retryableOutcome at hr
      simp only [Bool.or_eq_true, decide_eq_true_eq] at hr
      by_cases h1c : code ∈ retryStatusCodes
      · simp only [if_pos h1c]
        cases n with
        | zero =>
          rw [queryModelGo]
          refine ⟨?_, rfl, by simp⟩
          show att + 1 = 3
          omega
        | succ m => exact ih (att + 1) (d * 2) (s ++ [d]) (by omega) (by omega)
      · by_cases h2c : 400 ≤ code ∧ code < 600
        · simp only [if_neg h1c, if_pos h2c]
          by_cases hlt : att < 2
          · simp only [if_pos hlt]
            cases n with
            | zero => omega
            | succ m => exact ih (att + 1) (d * 2) (s ++ [d]) (by omega) (by omega)
          · simp only [if_neg hlt]
            exact ⟨by omega, by trivial, by simp⟩
        · have hbody : body = none := by tauto
          subst hbody
          simp only [if_neg h1c, if_neg h2c]
          by_cases hlt : att < 2
          · simp only [if_pos hlt]
            cases n with
            | zero => omega
            | succ m => exact ih (att + 1) (d * 2) (s ++ [d]) (by omega) (by omega)
          · simp only [if_neg hlt]
            exact ⟨by omega, by trivial, by simp⟩
    | reqExc m =>
      by_cases hlt : att < 2
      · simp only [if_pos hlt]
        cases n with
        | zero => omega
        | succ m2 => exact ih (att + 1) (d * 2) (s ++ [d]) (by omega) (by omega)
      · simp only [if_neg hlt]
        exact ⟨by omega, by trivial, by simp⟩
    | otherExc m =>
      rw [henvatt] at hr
      exact absurd hr (by simp [retryableOutcome])

/-- Whether one attempt's outcome makes `query_model` return an error
with no further attempt: a non-error status whose body parses but lacks
the candidates structure, or an exception other than a request
exception. An unparseable body is NOT here — it raises a
RequestException subclass and is retried. -/
def immediateFailOutcome : Outcome → Bool
  | .resp code body =>
    !(decide (code ∈ retryStatusCodes)) && !(decide (400 ≤ code ∧ code < 600)) &&
      decide (body = some none)
  | .reqExc _ => false
  | .otherExc _ => true

theorem queryModel_immediate_fail (env : Nat → Outcome)
    (h : immediateFailOutcome (env 0) = true) :
    (queryModel env).attempts = 1 ∧ (queryModel env).text = none ∧
      (queryModel env).error ≠ none := by
  unfold queryModel
  rw [queryModelGo]
  cases henv : env 0 with
  | resp code body =>
    rw [henv] at h
    unfold immediateFailOutcome at h
    rw [Bool.and_eq_true, Bool.and_eq_true, Bool.not_eq_true', Bool.not_eq_true',
      decide_eq_false_iff_not, decide_eq_false_iff_not, decide_eq_true_eq] at h
    simp only [if_neg h.1.1, if_neg h.1.2]
    cases body with
    | none => exact absurd h.2 (by simp)
    | some b =>
      cases b with
      | none => exact ⟨rfl, rfl, by simp⟩
      | some t => exact absurd h.2 (by simp)
  | reqExc m =>
    rw [henv] at h
    simp [immediateFailOutcome] at h
  | otherExc m => exact ⟨rfl, rfl, by simp⟩

/-- C5 (amended): every `query_model` run makes at most 3 attempts and
its sleeps follow the doubling schedule 1, 2, 4; when every attempt's
outcome is retryable — which includes 50x statuses, request exceptions,
client-side HTTP error statuses such as 400/403/404 (their
`raise_for_status` error is caught by the RequestException handler), and
unparseable response bodies (the JSONDecodeError of `response.json()` is
a RequestException subclass) — all 3 attempts are consumed and a
terminal backend-unavailable error is returned; only a non-request
failure (a parsed response lacking the expected candidates structure, or
an unexpected exception) fails immediately, after exactly one attempt. -/
theorem retry_policy (env : Nat → Outcome) :
    (queryModel env).attempts ≤ 3 ∧
    (queryModel env).sleeps <+: [1, 2, 4] ∧
    ((∀ i, retryableOutcome (env i) = true) →
      (queryModel env).attempts = 3 ∧ (queryModel env).text = none ∧
        (queryModel env).error ≠ none) ∧
    (immediateFailOutcome (env 0) = true →
      (queryModel env).attempts = 1 ∧ (queryModel env).text = none ∧
        (queryModel env).error ≠ none) := by
  refine ⟨queryModelGo_attempts_le env 3 0 1 [], ?_, ?_, queryModel_immediate_fail env⟩
  · obtain ⟨ext, hext, hpre⟩ := queryModelGo_sleeps env 3 0 1 []
    show (queryModelGo env 3 0 1 []).sleeps <+: [1, 2, 4]
    rw [hext, List.nil_append]
    exact hpre
  · intro henv
    exact queryModelGo_all_retryable env henv 3 0 1 [] rfl (by omega)

/-- Witness for `retry_policy`: on an all-request-exception environment
the call consumes all 3 attempts and surfaces a terminal error. -/
theorem retry_policy_witness :
    (queryModel (fun _ => Outcome.reqExc "connection refused")).attempts = 3 ∧
    (queryModel (fun _ => Outcome.reqExc "connection refused")).text = none ∧
    (queryModel (fun _ => Outcome.reqExc "connection refused")).error ≠ none :=
  (retry_policy (fun _ => Outcome.reqExc "connection refused")).2.2.1 (fun _ => rfl)

/-- C5 counterexample: a client-side HTTP 403 — non-retryable according
to the claim — is raised by `raise_for_status`, caught as a
RequestException and retried: the call consumes all 3 attempts and
sleeps twice (delays 1 and 2) instead of failing immediately with no
further attempt. -/
theorem client_error_retried_counterexample :
    queryModel (fun _ => Outcome.resp 403 none)
      = ⟨none, some "Error: Could not connect to model API after 3 attempts. HTTP 403",
          3, [1, 2]⟩ ∧
    (queryModel (fun _ => Outcome.resp 403 none)).attempts ≠ 1 := by
  refine ⟨by decide, by decide⟩

/-- C10: every `query_model` call returns a (text, error) pair with
exactly one component non-null — the generated text is present exactly
when the error is absent, on the success path and on every failure path. -/
theorem query_model_exclusive_pair (env : Nat → Outcome) :
    (queryModel env).text.isSome = (queryModel env).error.isNone :=
  queryModelGo_exclusive env 3 0 1 []

/-! ### The question endpoint (`ask_question`, lines 182-316 of app.py) -/

/-- `clean_generated_code` (lines 171-180): drop a leading
triple-backtick python fence, drop a trailing fence, then strip
surrounding whitespace. -/
def cleanGeneratedCode (raw : String) : String :=
  let cs := raw.data
  let cs1 := if List.isPrefixOf ("```python".data) cs then cs.drop 9 else cs
  let cs2 := if List.isSuffixOf ("```".data) cs1 then cs1.take (cs1.length - 3) else cs1
  String.mk (stripChars cs2)

/-- The module-level placeholder key of line 19. -/
def API_KEY_PLACEHOLDER : String := "PASTE_YOUR_GEMINI_API_KEY_HERE"

/-- The code-generation system instruction of lines 211-231, built from
the recorded master-table column list. -/
def CODE_GEN_CONFIG (dfColumns : String) : String :=
  "TASK: Write Python code to answer a question using a pandas DataFrame.\n" ++
  "CONTEXT: The DataFrame is named df.\nCOLUMNS: " ++ dfColumns ++ "\n" ++
  "RULES: a single standalone code block; the last line must assign result; " ++
  "no print; only pandas and df; case-insensitive string matching; " ++
  "no os, subprocess, code evaluation or network calls."

/-- The error-explanation system instruction of lines 277-285. -/
def ERROR_CONFIG (question cleanedCode execErr : String) : String :=
  "TASK: Explain a Python code execution error to a user in simple terms.\n" ++
  "USER_QUESTION: \"" ++ question ++ "\"\nFAILED_CODE:\n" ++ cleanedCode ++
  "\nERROR_MESSAGE: \"" ++ execErr ++ "\"\n\n" ++
  "Provide a user-friendly explanation of what went wrong and suggest how to rephrase the question."

/-- The answer-synthesis system instruction of lines 290-302. -/
def SYNTHESIS_CONFIG (question dataResult : String) : String :=
  "TASK: Provide a clear, natural language answer to a question based only on the provided data.\n" ++
  "CONTEXT: You are an analyst for Project Samarth.\nUSER_QUESTION: \"" ++ question ++
  "\"\nDATA_RESULT:\n" ++ dataResult ++ "\n" ++
  "RULES: answer only from DATA_RESULT; state that the data is not available when it is empty or null; " ++
  "end with the citation [Sources: agri.csv, rain.csv, soil.csv]."

/-- The outcome of running generated code in the `exec` sandbox of
lines 253-268 against a private df copy: a raised exception message, or
the serialized `result` binding (`none` when the code bound nothing);
plus the df value left behind in the local context, which `ask_question`
discards. The Python semantics of the arbitrary generated code is an
oracle of this shape. -/
structure ExecOut where
  res : Except String (Option String)
  ctxDf : List MRow

/-- `master_df.copy()` (line 246): an equal-valued private copy. -/
def dfCopy (df : List MRow) : List MRow := df

/-- `str(None)` as interpolated into the synthesis instruction. -/
def showDataResult : Option String → String
  | none => "None"
  | some s => s

/-- Line 192's error payload for an unset API key. -/
def configErrMsg : String :=
  "Server-side configuration error: The Gemini API key is not set. Please add your API key to the API_KEY variable in app.py."

/-- Line 195's error payload when the master table is unavailable. -/
def dataUnavailableMsg : String :=
  "Data is not loaded. Please check server logs for file path errors."

/-- Line 201's error payload for a request without a JSON body. -/
def invalidJsonMsg : String :=
  "Invalid request: No JSON body or incorrect Content-Type."

/-- Line 206's error payload for a body without a question field. -/
def missingQuestionMsg : String :=
  "Invalid request: question field is missing from JSON body."

/-- The observable outcome of one `/ask` request: the HTTP status, the
error payload of non-200 responses, the four fields of the 200 response
body, and the number of `query_model` calls made. -/
structure AskResult where
  status : Nat
  errorField : Option String
  answer : Option String
  dataResult : Option String
  generatedCode : Option String
  execError : Option String
  backendCalls : Nat
deriving DecidableEq

/-- The code-generation call of line 233. -/
def genResult (net : String → String → Nat → Outcome) (dfColumns question : String) :
    QMResult :=
  queryModel (net (CODE_GEN_CONFIG dfColumns) question)

/-- The sanitized code the request derives from the code-generation call
(line 237). -/
def cleanedCodeOf (net : String → String → Nat → Outcome) (dfColumns question : String) :
    String :=
  cleanGeneratedCode ((genResult net dfColumns question).text.getD "")

/-- The error-explanation call of line 286, made after an execution
error `m`. -/
def explainResult (net : String → String → Nat → Outcome)
    (dfColumns question m : String) : QMResult :=
  queryModel (net (ERROR_CONFIG question (cleanedCodeOf net dfColumns question) m) question)

/-- The answer-synthesis call of line 303, made after a successful
execution with serialized result `v`. -/
def synthResult (net : String → String → Nat → Outcome)
    (dfColumns question : String) (v : Option String) : QMResult :=
  queryModel (net (SYNTHESIS_CONFIG question (showDataResult v)) question)

/-- `ask_question` (lines 182-316): the request orchestration. The
request body is `none` for an unparseable JSON body, `some none` for a
body without a question field, and `some (some q)` for question `q`.
`net` maps each (system instruction, user query) pair to the per-attempt
transport outcomes of that `query_model` call. Returns the response
together with the master-table reference after the request. -/
def askQuestion (apiKey : String) (master : Option (List MRow)) (dfColumns : String)
    (body : Option (Option String)) (net : String → String → Nat → Outcome)
    (execO : List MRow → ExecOut) : AskResult × Option (List MRow) :=
  if apiKey = API_KEY_PLACEHOLDER ∨ apiKey = "" then
    (⟨500, some configErrMsg, none, none, none, none, 0⟩, master)
  else
    match master with
    | none => (⟨500, some dataUnavailableMsg, none, none, none, none, 0⟩, master)
    | some df =>
      match body with
      | none => (⟨400, some invalidJsonMsg, none, none, none, none, 0⟩, master)
      | some none => (⟨400, some missingQuestionMsg, none, none, none, none, 0⟩, master)
      | some (some question) =>
        match (genResult net dfColumns question).error with
        | some e => (⟨500, some e, none, none, none, none, 1⟩, master)
        | none =>
          match (execO (dfCopy df)).res with
          | .error m =>
            match (explainResult net dfColumns question m).error with
            | some e => (⟨500, some e, none, none, none, none, 2⟩, master)
            | none =>
              (⟨200, none, (explainResult net dfColumns question m).text, none,
                some (cleanedCodeOf net dfColumns question), some m, 2⟩, master)
          | .ok v =>
            match (synthResult net dfColumns question v).error with
            | some e => (⟨500, some e, none, none, none, none, 2⟩, master)
            | none =>
              (⟨200, none, (synthResult net dfColumns question v).text, v,
                some (cleanedCodeOf net dfColumns question), none, 2⟩, master)

/-- A backend stub that always fails at transport level. -/
def netStub : String → String → Nat → Outcome := fun _ _ _ => Outcome.reqExc "down"

/-- An execution stub that binds no result and leaves the table as is. -/
def execStub : List MRow → ExecOut := fun df => ⟨.ok none, df⟩

/-- An execution stub whose generated code raises at runtime. -/
def execErrStub : List MRow → ExecOut := fun df => ⟨.error "boom", df⟩

/-- C6 counterexample: the two precondition rejections — unset API key,
and unavailable master table — answer with the same HTTP status code
500; the codes are not distinct from each other (only the error message
strings differ). -/
theorem precheck_same_status_counterexample :
    (askQuestion API_KEY_PLACEHOLDER (some []) "[]" (some (some "q")) netStub execStub).1.status
        = 500 ∧
    (askQuestion "key" none "[]" (some (some "q")) netStub execStub).1.status = 500 :=
  ⟨rfl, rfl⟩

/-- C6 (amended): a request under an unset API key, and a request under
an unavailable master table, are both rejected before any backend call
(zero `query_model` calls) with HTTP status 500 — the same status code
for both cases, but distinct error messages. -/
theorem precheck_rejections (master : Option (List MRow)) (dfColumns : String)
    (body : Option (Option String)) (net : String → String → Nat → Outcome)
    (execO : List MRow → ExecOut) (apiKey : String)
    (hkey : apiKey ≠ API_KEY_PLACEHOLDER ∧ apiKey ≠ "") :
    (askQuestion API_KEY_PLACEHOLDER master dfColumns body net execO).1
      = ⟨500, some configErrMsg, none, none, none, none, 0⟩ ∧
    (askQuestion apiKey none dfColumns body net execO).1
      = ⟨500, some dataUnavailableMsg, none, none, none, none, 0⟩ ∧
    configErrMsg ≠ dataUnavailableMsg := by
  refine ⟨?_, ?_, by decide⟩
  · unfold askQuestion
    rw [if_pos (Or.inl rfl)]
  · unfold askQuestion
    rw [if_neg (fun h => h.elim hkey.1 hkey.2)]

/-- Witness for `precheck_rejections` at a concrete instance. -/
theorem precheck_rejections_witness :
    (askQuestion API_KEY_PLACEHOLDER (some []) "[]" none netStub execStub).1
      = ⟨500, some configErrMsg, none, none, none, none, 0⟩ ∧
    (askQuestion "key" none "[]" none netStub execStub).1
      = ⟨500, some dataUnavailableMsg, none, none, none, none, 0⟩ ∧
    configErrMsg ≠ dataUnavailableMsg :=
  precheck_rejections (some []) "[]" none netStub execStub "key" (by decide)

/-- C7 (amended): when the generated code raises at runtime and the
follow-up explanation backend call succeeds, the request completes as a
200 response whose execution-error field carries the runtime error and
whose answer is the non-null text obtained from the explanation call
(the call sent the ERROR_CONFIG instruction); the execution failure is
not itself escalated — only a failure of the explanation call itself
turns the request into a 500 backend error. -/
theorem exec_error_explained (apiKey : String) (df : List MRow) (dfColumns : String)
    (question : String) (net : String → String → Nat → Outcome)
    (execO : List MRow → ExecOut) (m : String)
    (hkey : ¬(apiKey = API_KEY_PLACEHOLDER ∨ apiKey = ""))
    (hgen : (genResult net dfColumns question).error = none)
    (hex : (execO (dfCopy df)).res = .error m)
    (hfin : (explainResult net dfColumns question m).error = none) :
    (askQuestion apiKey (some df) dfColumns (some (some question)) net execO).1
      = ⟨200, none, (explainResult net dfColumns question m).text,
          none, some (cleanedCodeOf net dfColumns question), some m, 2⟩ ∧
    (askQuestion apiKey (some df) dfColumns (some (some question)) net execO).1.answer
      ≠ none := by
  have hask : (askQuestion apiKey (some df) dfColumns (some (some question)) net execO).1
      = ⟨200, none, (explainResult net dfColumns question m).text,
          none, some (cleanedCodeOf net dfColumns question), some m, 2⟩ := by
    unfold askQuestion
    rw [if_neg hkey]
    simp only [hgen, hex, hfin]
  refine ⟨hask, ?_⟩
  rw [hask]
  show (explainResult net dfColumns question m).text ≠ none
  have hx : (explainResult net dfColumns question m).text.isSome
      = (explainResult net dfColumns question m).error.isNone :=
    queryModelGo_exclusive
      (net (ERROR_CONFIG question (cleanedCodeOf net dfColumns question) m) question) 3 0 1 []
  rw [hfin] at hx
  intro hcon
  rw [hcon] at hx
  exact Bool.noConfusion hx

/-- A backend stub that always succeeds with fixed generated text. -/
def netOkStub : String → String → Nat → Outcome :=
  fun _ _ _ => Outcome.resp 200 (some (some "result = df"))

/-- Witness for `exec_error_explained` at a concrete instance. -/
theorem exec_error_explained_witness :
    (askQuestion "key" (some []) "[]" (some (some "q")) netOkStub execErrStub).1
      = ⟨200, none, (explainResult netOkStub "[]" "q" "boom").text,
          none, some (cleanedCodeOf netOkStub "[]" "q"), some "boom", 2⟩ ∧
    (askQuestion "key" (some []) "[]" (some (some "q")) netOkStub execErrStub).1.answer
      ≠ none :=
  exec_error_explained "key" [] "[]" "q" netOkStub execErrStub "boom"
    (by decide) rfl rfl rfl

/-- A backend that generates code successfully but whose explanation
call fails at transport level. -/
def netExplainFail : String → String → Nat → Outcome :=
  fun cfg _ _ =>
    if cfg = CODE_GEN_CONFIG "[]" then Outcome.resp 200 (some (some "result = df"))
    else Outcome.reqExc "backend down"

set_option maxRecDepth 10000 in
/-- C7 counterexample: a request whose generated query raises at runtime
does not always complete as a 200 response — in the run below the
execution raises "boom", the follow-up explanation call fails, and the
endpoint answers with a request-level 500 backend error, not 200. -/
theorem exec_error_not_always_200_counterexample :
    (execErrStub (dfCopy [])).res = .error "boom" ∧
    (askQuestion "key" (some []) "[]" (some (some "q")) netExplainFail execErrStub).1.status
        = 500 ∧
    (askQuestion "key" (some []) "[]" (some (some "q")) netExplainFail execErrStub).1.status
        ≠ 200 := by
  refine ⟨rfl, rfl, by decide⟩

/-- C9: executing a generated query never changes the shared master
table: after any request the master-table reference equals the one
before; a second request therefore runs against exactly the table the
first request saw; and the response is independent of whatever table
value the execution step leaves behind in its private context. -/
theorem master_table_unchanged (apiKey : String) (master : Option (List MRow))
    (dfColumns : String) (body : Option (Option String))
    (net : String → String → Nat → Outcome) (execO : List MRow → ExecOut) :
    (askQuestion apiKey master dfColumns body net execO).2 = master ∧
    (∀ apiKey2 dfc2 body2 net2 execO2,
      askQuestion apiKey2 (askQuestion apiKey master dfColumns body net execO).2
          dfc2 body2 net2 execO2
        = askQuestion apiKey2 master dfc2 body2 net2 execO2) ∧
    (∀ execO2 : List MRow → ExecOut, (∀ d, (execO2 d).res = (execO d).res) →
      (askQuestion apiKey master dfColumns body net execO2).1
        = (askQuestion apiKey master dfColumns body net execO).1) := by
  have hsnd : ∀ (k : String) (ms : Option (List MRow)) (dc : String)
      (b : Option (Option String)) (n : String → String → Nat → Outcome)
      (e : List MRow → ExecOut), (askQuestion k ms dc b n e).2 = ms := by
    intro k ms dc b n e
    unfold askQuestion
    repeat' split
    all_goals rfl
  refine ⟨hsnd _ _ _ _ _ _, ?_, ?_⟩
  · intro apiKey2 dfc2 body2 net2 execO2
    rw [hsnd apiKey master dfColumns body net execO]
  · intro execO2 hsame
    unfold askQuestion
    simp only [hsame]

/-- Witness for `master_table_unchanged` at a concrete instance. -/
theorem master_table_unchanged_witness :
    (askQuestion "key" (some []) "[]" none netStub execStub).2 = some [] ∧
    (∀ apiKey2 dfc2 body2 net2 execO2,
      askQuestion apiKey2 (askQuestion "key" (some []) "[]" none netStub execStub).2
          dfc2 body2 net2 execO2
        = askQuestion apiKey2 (some []) dfc2 body2 net2 execO2) ∧
    (∀ execO2 : List MRow → ExecOut, (∀ d, (execO2 d).res = (execStub d).res) →
      (askQuestion "key" (some []) "[]" none netStub execO2).1
        = (askQuestion "key" (some []) "[]" none netStub execStub).1) :=
  master_table_unchanged "key" (some []) "[]" none netStub execStub

end Samarth
